import Mathlib

/- Shallow embedding of the structural section design engine of this
   repository:
     skills/ec2-concrete/scripts/beam_bending.py
     skills/ec2-concrete/scripts/beam_shear.py
     skills/ec2-slabs/scripts/slab_design.py
     skills/ec2-columns/scripts/column_design.py
     skills/ec3-steel/scripts/steel_beam.py
   Numeric model: Python float arithmetic is modelled exactly; purely
   rational quantities use ℚ, and quantities downstream of sqrt, pi or
   fractional powers live in ℝ.  Display rounding (round(x, n)) applied to
   the returned dicts and the echoed input fields are presentation only
   and are omitted from the result structures.  A Python dict KeyError on
   a material-grade lookup is modelled by Option (none = lookup failure,
   the spec's UnknownGradeError). -/

open scoped Classical

/-- Partial safety factor for concrete, GAMMA_C = 1.50 in every script. -/
def GAMMA_C : ℚ := 1.5

/-- Partial safety factor for reinforcing steel, GAMMA_S = 1.15. -/
def GAMMA_S : ℚ := 1.15

/-- Partial safety factor for permanent loads, GAMMA_G = 1.35
    (beam_bending.py line 45; identically in slab_design.py and
    steel_beam.py). -/
def GAMMA_G : ℚ := 1.35

/-- Partial safety factor for variable loads, GAMMA_Q = 1.50. -/
def GAMMA_Q : ℚ := 1.5

/-- The load combination q_Ed = GAMMA_G * g + GAMMA_Q * q
    (beam_bending.py line 127, slab_design.py line 150,
    steel_beam.py line 77): the spec's Load Combinator. -/
def combine (g q : ℚ) : ℚ := GAMMA_G * g + GAMMA_Q * q

/-- Cross-sectional area of one bar of diameter d mm
    (bar_area in beam_bending.py line 52, column_design.py line 39,
    slab_design.py line 97). -/
noncomputable def bar_area (d : ℚ) : ℝ := Real.pi * (d : ℝ) ^ 2 / 4

namespace BeamBending

/-- One concrete grade record of beam_bending.py's CONCRETE_GRADES. -/
structure ConcreteGrade where
  fck : ℚ
  fctm : ℚ
  Ecm : ℚ
deriving DecidableEq, Repr

/-- One steel grade record of beam_bending.py's STEEL_GRADES. -/
structure SteelGrade where
  fyk : ℚ
  Es : ℚ
deriving DecidableEq, Repr

/-- beam_bending.py lines 25-33. -/
def CONCRETE_GRADES : List (String × ConcreteGrade) :=
  [("C20_25", ⟨20, 2.21, 30000⟩),
   ("C25_30", ⟨25, 2.56, 31000⟩),
   ("C30_37", ⟨30, 2.90, 33000⟩),
   ("C35_45", ⟨35, 3.21, 34000⟩),
   ("C40_50", ⟨40, 3.51, 35000⟩),
   ("C45_55", ⟨45, 3.80, 36000⟩),
   ("C50_60", ⟨50, 4.07, 37000⟩)]

/-- beam_bending.py lines 35-40. -/
def STEEL_GRADES : List (String × SteelGrade) :=
  [("B500SP", ⟨500, 200000⟩),
   ("B500A", ⟨500, 200000⟩),
   ("B500B", ⟨500, 200000⟩),
   ("B400", ⟨400, 200000⟩)]

/-- beam_bending.py line 49. -/
def BAR_DIAMETERS : List ℚ := [8, 10, 12, 16, 20, 25, 32]

/-- One bar proposal dict produced by find_bars (lines 78-84). -/
structure BarProposal where
  n : ℤ
  dia : ℚ
  As_provided : ℝ
  ratio : ℝ
  spacing : ℝ

/-- find_bars (beam_bending.py lines 57-88): per diameter >= 12 the
    minimal bar count covering the required area, kept when the bars fit
    in the available width and the count is at least 2; sorted ascending
    by the provided/required ratio and truncated to 5 entries. -/
noncomputable def find_bars (As_required_mm2 : ℝ) (b_mm cover_mm : ℚ)
    (stirrup_dia : ℚ) : List BarProposal :=
  let min_spacing : ℚ := 25
  let proposals := BAR_DIAMETERS.filterMap (fun dia =>
    if dia < 12 then none
    else
      let area_one : ℝ := bar_area dia
      let n_required : ℤ := ⌈As_required_mm2 / area_one⌉
      let space_available : ℚ := b_mm - 2 * cover_mm - 2 * stirrup_dia
      let space_needed : ℚ :=
        n_required * dia + (n_required - 1) * max min_spacing dia
      if space_needed ≤ space_available ∧ 2 ≤ n_required then
        some { n := n_required, dia := dia,
               As_provided := (n_required : ℝ) * area_one,
               ratio := (n_required : ℝ) * area_one / As_required_mm2,
               spacing :=
                 if 1 < n_required then
                   ((space_available : ℝ) - (n_required : ℝ) * (dia : ℝ)) /
                     ((n_required : ℝ) - 1)
                 else 0 }
      else none)
  (proposals.insertionSort (fun p q => p.ratio ≤ q.ratio)).take 5

/-- Result of calculate_beam_bending: the two return dicts of
    beam_bending.py (lines 145-154 and 173-204).  Echoed inputs and the
    display rounding are omitted. -/
inductive BeamResult where
  | err (q_Ed M_Ed mu mu_lim : ℚ)
  | ok (q_Ed M_Ed mu mu_lim : ℚ) (xi As_calc : ℝ) (As_min As_max : ℚ)
      (As_required : ℝ) (is_min_governing : Bool)
      (proposals : List BarProposal)

/-- True for the error-state return dict (field "error" in the source). -/
def BeamResult.error : BeamResult → Bool
  | .err _ _ _ _ => true
  | .ok _ _ _ _ _ _ _ _ _ _ _ => false

/-- Field q_Ed of either return dict. -/
def BeamResult.q_EdOf : BeamResult → ℚ
  | .err v _ _ _ => v
  | .ok v _ _ _ _ _ _ _ _ _ _ => v

/-- Field M_Ed of either return dict. -/
def BeamResult.M_EdOf : BeamResult → ℚ
  | .err _ v _ _ => v
  | .ok _ v _ _ _ _ _ _ _ _ _ => v

/-- Field mu of either return dict. -/
def BeamResult.muOf : BeamResult → ℚ
  | .err _ _ v _ => v
  | .ok _ _ v _ _ _ _ _ _ _ _ => v

/-- Field mu_lim of either return dict. -/
def BeamResult.mu_limOf : BeamResult → ℚ
  | .err _ _ _ v => v
  | .ok _ _ _ v _ _ _ _ _ _ _ => v

/-- Field As_max_mm2 (0 for the error dict, which does not carry it). -/
def BeamResult.As_maxOf : BeamResult → ℚ
  | .err _ _ _ _ => 0
  | .ok _ _ _ _ _ _ _ v _ _ _ => v

/-- Field proposals ([] for the error dict, which does not carry it). -/
def BeamResult.proposalsOf : BeamResult → List BarProposal
  | .err _ _ _ _ => []
  | .ok _ _ _ _ _ _ _ _ _ _ v => v

/-- Effective depth d in mm (line 121): h_mm - cover - stirrup (8 mm) -
    half of the assumed 20 mm main bar. -/
def beam_d_mm (h cover : ℚ) : ℚ := h * 1000 - cover - 8 - 20 / 2

/-- Design moment M_Ed = q_Ed * span^2 / 8 in kNm (line 130). -/
def beam_M_Ed (span g q : ℚ) : ℚ := combine g q * span ^ 2 / 8

/-- The bending ratio mu = M_Ed_Nmm / (b_mm * d_mm^2 * fcd) (line 136). -/
def beam_mu (span b h g q cover fcd : ℚ) : ℚ :=
  beam_M_Ed span g q * 1000000 / (b * 1000 * beam_d_mm h cover ^ 2 * fcd)

/-- The limiting ratio mu_lim from strain compatibility (lines 139-142). -/
def beam_mu_lim (st : SteelGrade) : ℚ :=
  let epsilon_cu : ℚ := 3.5e-3
  let epsilon_yd : ℚ := st.fyk / GAMMA_S / st.Es
  let xi_lim : ℚ := epsilon_cu / (epsilon_cu + epsilon_yd)
  xi_lim * (1 - 0.5 * xi_lim)

/-- Body of calculate_beam_bending (lines 91-204) after the two grade
    lookups have succeeded. -/
noncomputable def beam_bending_with_grades (span b h g q : ℚ)
    (conc : ConcreteGrade) (st : SteelGrade) (cover : ℚ) : BeamResult :=
  let fcd := conc.fck / GAMMA_C
  let fyd := st.fyk / GAMMA_S
  let b_mm := b * 1000
  let h_mm := h * 1000
  let d_mm := beam_d_mm h cover
  let q_Ed := combine g q
  let M_Ed := beam_M_Ed span g q
  let mu := beam_mu span b h g q cover fcd
  let mu_lim := beam_mu_lim st
  if mu_lim < mu then BeamResult.err q_Ed M_Ed mu mu_lim
  else
    let xi : ℝ := 1 - Real.sqrt (1 - 2 * (mu : ℝ))
    let As_mm2 : ℝ := xi * (b_mm : ℝ) * (d_mm : ℝ) * (fcd : ℝ) / (fyd : ℝ)
    let As_min_1 : ℚ := 0.26 * conc.fctm / st.fyk * b_mm * d_mm
    let As_min_2 : ℚ := 0.0013 * b_mm * d_mm
    let As_min : ℚ := max As_min_1 As_min_2
    let As_max : ℚ := 0.04 * b_mm * h_mm
    let As_required : ℝ := max As_mm2 ((As_min : ℝ))
    BeamResult.ok q_Ed M_Ed mu mu_lim xi As_mm2 As_min As_max As_required
      (decide (As_mm2 < (As_min : ℝ))) (find_bars As_required b_mm cover 8)

/-- calculate_beam_bending with the grade lookups of lines 104-105;
    none models the dict KeyError on an unknown grade name. -/
noncomputable def calculate_beam_bending (span b h g q : ℚ)
    (concrete steel : String) (cover : ℚ) : Option BeamResult :=
  match CONCRETE_GRADES.lookup concrete, STEEL_GRADES.lookup steel with
  | some conc, some st =>
      some (beam_bending_with_grades span b h g q conc st cover)
  | _, _ => none

end BeamBending

namespace BeamShear

/-- One concrete grade record of beam_shear.py's CONCRETE_GRADES
    (lines 20-28; no Ecm column there). -/
structure ConcreteGrade where
  fck : ℚ
  fctm : ℚ
deriving DecidableEq, Repr

/-- One steel grade record of beam_shear.py's STEEL_GRADES (lines 30-35). -/
structure SteelGrade where
  fyk : ℚ
deriving DecidableEq, Repr

/-- beam_shear.py lines 20-28. -/
def CONCRETE_GRADES : List (String × ConcreteGrade) :=
  [("C20_25", ⟨20, 2.21⟩),
   ("C25_30", ⟨25, 2.56⟩),
   ("C30_37", ⟨30, 2.90⟩),
   ("C35_45", ⟨35, 3.21⟩),
   ("C40_50", ⟨40, 3.51⟩),
   ("C45_55", ⟨45, 3.80⟩),
   ("C50_60", ⟨50, 4.07⟩)]

/-- beam_shear.py lines 30-35. -/
def STEEL_GRADES : List (String × SteelGrade) :=
  [("B500SP", ⟨500⟩),
   ("B500A", ⟨500⟩),
   ("B500B", ⟨500⟩),
   ("B400", ⟨400⟩)]

/-- Size-effect factor k = min(1 + sqrt(200 / d_mm), 2.0) (line 66). -/
noncomputable def shear_k (d : ℚ) : ℝ :=
  min (1 + Real.sqrt ((200 : ℝ) / (d * 1000 : ℚ))) 2

/-- Unreinforced shear capacity V_Rd_c in kN (lines 66-78), including
    the v_min floor. -/
noncomputable def shear_V_Rd_c (b d : ℚ) (conc : ConcreteGrade)
    (As_l : ℚ) : ℝ :=
  let fck := conc.fck
  let b_mm := b * 1000
  let d_mm := d * 1000
  let k := shear_k d
  let rho_l : ℚ := if 0 < As_l then min (As_l / (b_mm * d_mm)) 0.02 else 0
  let C_Rd_c : ℚ := 0.18 / GAMMA_C
  let k1 : ℚ := 0.15
  let sigma_cp : ℚ := 0
  let V_Rd_c : ℝ :=
    ((C_Rd_c : ℝ) * k * ((100 * rho_l * fck : ℚ) : ℝ) ^ ((1 : ℝ) / 3)
      + (k1 : ℝ) * (sigma_cp : ℝ)) * (b_mm : ℝ) * (d_mm : ℝ) / 1000
  let v_min : ℝ :=
    0.035 * k ^ ((1.5 : ℝ)) * ((fck : ℚ) : ℝ) ^ ((0.5 : ℝ))
  let V_Rd_c_min : ℝ := v_min * (b_mm : ℝ) * (d_mm : ℝ) / 1000
  max V_Rd_c V_Rd_c_min

/-- cot(theta) for theta given in degrees (lines 85-86):
    cot = 1 / tan(radians(theta_deg)). -/
noncomputable def cot_theta (theta_deg : ℚ) : ℝ :=
  1 / Real.tan ((theta_deg : ℝ) * Real.pi / 180)

/-- Strut-crushing capacity V_Rd_max in kN (lines 87-91). -/
noncomputable def shear_V_Rd_max (b d : ℚ) (conc : ConcreteGrade)
    (theta_deg : ℚ) : ℝ :=
  let fck := conc.fck
  let fcd := fck / GAMMA_C
  let nu_1 : ℚ := 0.6 * (1 - fck / 250)
  let ct := cot_theta theta_deg
  let alpha_cw : ℚ := 1.0
  (alpha_cw : ℝ) * ((b * 1000 : ℚ) : ℝ) * 0.9 * ((d * 1000 : ℚ) : ℝ) *
    (nu_1 : ℝ) * (fcd : ℝ) * (ct / (1 + ct ^ 2)) / 1000

/-- The stirrup-selection loop of lines 103-116: the first diameter of
    [8, 10, 12] whose spacing s = area / (Asw/s) is within s_max, with
    the spacing rounded down to 10 mm and floored at 50 mm; the for-else
    fallback takes diameter 12 without the 50 mm floor. -/
noncomputable def pick_stirrup (Asw_s : ℝ) (s_max : ℚ) : ℕ × ℝ :=
  let area8 : ℝ := 2 * Real.pi * 8 ^ 2 / 4
  let area10 : ℝ := 2 * Real.pi * 10 ^ 2 / 4
  let area12 : ℝ := 2 * Real.pi * 12 ^ 2 / 4
  if area8 / Asw_s ≤ (s_max : ℝ) then
    (8, max ((⌊area8 / Asw_s / 10⌋ : ℝ) * 10) 50)
  else if area10 / Asw_s ≤ (s_max : ℝ) then
    (10, max ((⌊area10 / Asw_s / 10⌋ : ℝ) * 10) 50)
  else if area12 / Asw_s ≤ (s_max : ℝ) then
    (12, max ((⌊area12 / Asw_s / 10⌋ : ℝ) * 10) 50)
  else
    (12, (⌊area12 / Asw_s / 10⌋ : ℝ) * 10)

/-- Result dict of calculate_shear (lines 122-141); echoed inputs and
    display rounding omitted. -/
structure ShearResult where
  k : ℝ
  V_Rd_c : ℝ
  V_Rd_max : ℝ
  needs_shear_reinf : Bool
  Asw_s : ℝ
  stirrup_dia : ℕ
  n_legs : ℕ
  s_required : ℝ
  safe : Bool

/-- Body of calculate_shear (beam_shear.py lines 41-141) after the grade
    lookups. -/
noncomputable def calculate_shear_with_grades (b d V_Ed : ℚ)
    (conc : ConcreteGrade) (st : SteelGrade) (As_l : ℚ)
    (theta_deg : ℚ) : ShearResult :=
  let fywd := st.fyk / GAMMA_S
  let d_mm := d * 1000
  let V_Ed_N := V_Ed * 1000
  let V_Rd_c := shear_V_Rd_c b d conc As_l
  let needs_shear_reinf : Bool := decide (V_Rd_c < (V_Ed : ℝ))
  let V_Rd_max := shear_V_Rd_max b d conc theta_deg
  let stirrups : ℝ × ℕ × ℝ :=
    if needs_shear_reinf then
      let Asw_s : ℝ :=
        (V_Ed_N : ℝ) / (0.9 * (d_mm : ℝ) * (fywd : ℝ) * cot_theta theta_deg)
      let s_max : ℚ := min (0.75 * d_mm) 600
      let sel := pick_stirrup Asw_s s_max
      (Asw_s, sel.1, sel.2)
    else (0, 0, 0)
  { k := shear_k d
    V_Rd_c := V_Rd_c
    V_Rd_max := V_Rd_max
    needs_shear_reinf := needs_shear_reinf
    Asw_s := stirrups.1
    stirrup_dia := stirrups.2.1
    n_legs := 2
    s_required := stirrups.2.2
    safe := decide ((V_Ed : ℝ) ≤ V_Rd_max) }

/-- calculate_shear with the grade lookups of lines 51-52; none models
    the dict KeyError on an unknown grade name. -/
noncomputable def calculate_shear (b d V_Ed : ℚ) (concrete steel : String)
    (As_l : ℚ) (theta_deg : ℚ) : Option ShearResult :=
  match CONCRETE_GRADES.lookup concrete, STEEL_GRADES.lookup steel with
  | some conc, some st =>
      some (calculate_shear_with_grades b d V_Ed conc st As_l theta_deg)
  | _, _ => none

end BeamShear

namespace SlabDesign

/-- One concrete grade record of slab_design.py's CONCRETE_GRADES
    (lines 21-27; only five grades there). -/
structure ConcreteGrade where
  fck : ℚ
  fctm : ℚ
deriving DecidableEq, Repr

/-- One steel grade record of slab_design.py's STEEL_GRADES (lines 29-33). -/
structure SteelGrade where
  fyk : ℚ
  Es : ℚ
deriving DecidableEq, Repr

/-- slab_design.py lines 21-27. -/
def CONCRETE_GRADES : List (String × ConcreteGrade) :=
  [("C20_25", ⟨20, 2.21⟩),
   ("C25_30", ⟨25, 2.56⟩),
   ("C30_37", ⟨30, 2.90⟩),
   ("C35_45", ⟨35, 3.21⟩),
   ("C40_50", ⟨40, 3.51⟩)]

/-- slab_design.py lines 29-33. -/
def STEEL_GRADES : List (String × SteelGrade) :=
  [("B500SP", ⟨500, 200000⟩),
   ("B500A", ⟨500, 200000⟩),
   ("B500B", ⟨500, 200000⟩)]

/-- Moment coefficients for plates simply supported on 4 edges
    (slab_design.py lines 48-60), keyed by ly/lx. -/
def COEFF_SIMPLY_SUPPORTED : List (ℚ × ℚ × ℚ) :=
  [(1.0, 0.0625, 0.0625),
   (1.1, 0.0698, 0.0571),
   (1.2, 0.0769, 0.0520),
   (1.3, 0.0833, 0.0474),
   (1.4, 0.0892, 0.0432),
   (1.5, 0.0948, 0.0393),
   (1.6, 0.0996, 0.0360),
   (1.7, 0.1040, 0.0331),
   (1.8, 0.1080, 0.0305),
   (1.9, 0.1112, 0.0283),
   (2.0, 0.1140, 0.0264)]

/-- Moment coefficients for plates fixed on 4 edges
    (slab_design.py lines 63-75). -/
def COEFF_ALL_FIXED : List (ℚ × ℚ × ℚ) :=
  [(1.0, 0.0340, 0.0340),
   (1.1, 0.0398, 0.0310),
   (1.2, 0.0452, 0.0284),
   (1.3, 0.0501, 0.0262),
   (1.4, 0.0545, 0.0243),
   (1.5, 0.0585, 0.0227),
   (1.6, 0.0620, 0.0213),
   (1.7, 0.0650, 0.0202),
   (1.8, 0.0676, 0.0192),
   (1.9, 0.0699, 0.0184),
   (2.0, 0.0718, 0.0177)]

/-- Python round(q, 1).  Python rounds half to even while Lean's round
    rounds half up; the two agree except at exact half-points of the
    first decimal, which cannot reach the branch of interpolate_coeff
    that calls this (there 10 * ratio is an integer, so round is the
    identity). -/
def round1 (q : ℚ) : ℚ := (round (q * 10) : ℚ) / 10

/-- min(table.keys(), key=lambda k: abs(k - ratio)) of line 88: the first
    key attaining the minimal distance. -/
def nearest_key (table : List (ℚ × ℚ × ℚ)) (ratio : ℚ) : ℚ :=
  match table with
  | [] => 0
  | (k, _) :: rest =>
      rest.foldl (fun best kv => if |kv.1 - ratio| < |best - ratio| then kv.1 else best) k

/-- interpolate_coeff (slab_design.py lines 78-94): clamp the ratio to
    [1, 2], then either return the exact table entry (when 10 * ratio is
    an integer) or linearly interpolate between the two neighbouring
    tabulated entries.  The unreachable KeyError paths return (0, 0). -/
def interpolate_coeff (table : List (ℚ × ℚ × ℚ)) (ratio0 : ℚ) : ℚ × ℚ :=
  let ratio := min (max ratio0 1) 2
  let r_low : ℚ := (⌊ratio * 10⌋ : ℚ) / 10
  let r_high : ℚ := (⌈ratio * 10⌉ : ℚ) / 10
  if r_low = r_high ∨ (table.lookup r_low).isNone then
    match table.lookup (round1 ratio) with
    | some c => c
    | none => ((table.lookup (nearest_key table ratio)).getD (0, 0))
  else
    match table.lookup r_low, table.lookup r_high with
    | some c_low, some c_high =>
        let t : ℚ := if r_high ≠ r_low then (ratio - r_low) / (r_high - r_low) else 0
        (c_low.1 + t * (c_high.1 - c_low.1), c_low.2 + t * (c_high.2 - c_low.2))
    | _, _ => (0, 0)

/-- One reinforcement proposal per metre of slab (lines 121-126). -/
structure SlabProposal where
  dia : ℚ
  spacing : ℚ
  As_provided : ℝ
  ratio : ℝ

/-- select_reinforcement (slab_design.py lines 101-129). -/
noncomputable def select_reinforcement (As_req_per_m : ℝ) (h_mm : ℚ)
    (direction : String) : List SlabProposal :=
  let max_spacing : ℚ :=
    if direction = ("main" : String) then min (3 * h_mm) 400 else min (3.5 * h_mm) 450
  let proposals := ([8, 10, 12, 16, 20] : List ℚ).filterMap (fun dia =>
    let area_one : ℝ := bar_area dia
    let spacing : ℝ := area_one * 1000 / As_req_per_m
    let spacing2 : ℝ := if (max_spacing : ℝ) < spacing then (max_spacing : ℝ) else spacing
    let spacing_round : ℚ := max ((⌊spacing2 / 10⌋ : ℚ) * 10) (max (dia + 5) 50)
    let n_bars : ℤ := ⌈(1000 : ℚ) / spacing_round⌉
    let As_provided : ℝ := (n_bars : ℝ) * area_one
    if As_req_per_m ≤ As_provided ∧ 50 ≤ spacing_round then
      some { dia := dia, spacing := spacing_round, As_provided := As_provided,
             ratio := As_provided / As_req_per_m }
    else none)
  (proposals.insertionSort (fun p q => p.ratio ≤ q.ratio)).take 4

/-- The --support_type argparse choices of slab_design.py line 424. -/
inductive SupportType where
  | simply_supported
  | all_fixed
  | three_fixed_one_free
  | two_adjacent_fixed
  | one_way
deriving DecidableEq, Repr

/-- Relative compression-zone depth with the over-capacity clamp, the
    expression `1 - math.sqrt(1 - 2 * mu) if mu < 0.5 else 0.5` used at
    slab_design.py lines 179, 201, 231, 235, 260, 263. -/
noncomputable def xi_of (mu : ℚ) : ℝ :=
  if mu < 0.5 then 1 - Real.sqrt (1 - 2 * (mu : ℝ)) else 0.5

/-- Effective depth of the first direction, d_mm of line 144
    (assumed 10 mm main bar). -/
def slab_d_x (thickness cover : ℚ) : ℚ := thickness * 1000 - cover - 10 / 2

/-- Effective depth of the second direction, d2_mm of line 145. -/
def slab_d_y (thickness cover : ℚ) : ℚ := thickness * 1000 - cover - 10 - 10 / 2

/-- One-way span moment (lines 169-173). -/
def M_Ed_span (q_Ed lx : ℚ) (support : SupportType) : ℚ :=
  if support = SupportType.all_fixed ∨ support = SupportType.two_adjacent_fixed then
    q_Ed * lx ^ 2 / 16
  else q_Ed * lx ^ 2 / 8

/-- One-way support moment (lines 169-174). -/
def M_Ed_support (q_Ed lx : ℚ) (support : SupportType) : ℚ :=
  if support = SupportType.all_fixed ∨ support = SupportType.two_adjacent_fixed then
    q_Ed * lx ^ 2 / 12
  else 0

/-- The bending ratio mu = M * 1e6 / (b * d^2 * fcd) with b = 1000 mm
    (lines 178, 200, 230, 234, 259, 262). -/
def slab_mu (M d fcd : ℚ) : ℚ := M * 1000000 / (1000 * d ^ 2 * fcd)

/-- Required area from a moment: xi * b * d * fcd / fyd with b = 1000,
    floored by As_min (lines 180-183 and analogues). -/
noncomputable def slab_As (M d fcd fyd As_min : ℚ) : ℝ :=
  max (xi_of (slab_mu M d fcd) * 1000 * (d : ℝ) * (fcd : ℝ) / (fyd : ℝ))
    ((As_min : ℝ))

/-- Minimum reinforcement As_min (line 182 / 238). -/
def slab_As_min (thickness cover : ℚ) (conc : ConcreteGrade)
    (st : SteelGrade) : ℚ :=
  max (0.26 * conc.fctm / st.fyk * 1000 * slab_d_x thickness cover)
    (0.0013 * 1000 * slab_d_x thickness cover)

/-- The fields added to the result dict in the one-way branch
    (lines 166-206). -/
structure OneWayData where
  M_Ed_span_x : ℚ
  M_Ed_support_x : ℚ
  mu_span : ℚ
  As_span_x : ℝ
  As_transverse : ℝ
  As_min : ℚ
  reinf_span_x : List SlabProposal
  reinf_transverse : List SlabProposal
  As_support_x : Option ℝ
  reinf_support_x : Option (List SlabProposal)

/-- The fields added to the result dict in the two-way branch
    (lines 208-270). -/
structure TwoWayData where
  alpha_x : ℚ
  alpha_y : ℚ
  M_Ed_x : ℚ
  M_Ed_y : ℚ
  M_Ed_x_sup : ℚ
  M_Ed_y_sup : ℚ
  mu_x : ℚ
  mu_y : ℚ
  As_x : ℝ
  As_y : ℝ
  As_min : ℚ
  reinf_x : List SlabProposal
  reinf_y : List SlabProposal
  As_x_sup : Option ℝ
  As_y_sup : Option ℝ
  reinf_x_sup : Option (List SlabProposal)
  reinf_y_sup : Option (List SlabProposal)

/-- Result dict of calculate_slab (lines 155-293).  Exactly one of
    oneWayData / twoWayData is present, according to is_one_way; there is
    no error state. -/
structure SlabResult where
  ratio : ℚ
  q_Ed : ℚ
  d_x : ℚ
  d_y : ℚ
  is_one_way : Bool
  oneWayData : Option OneWayData
  twoWayData : Option TwoWayData
  Ld_basic : ℝ
  Ld_actual : ℚ
  deflection_ok : Bool

/-- Body of calculate_slab (slab_design.py lines 132-293) after the grade
    lookups. -/
noncomputable def calculate_slab_with_grades (lx ly thickness g q : ℚ)
    (conc : ConcreteGrade) (st : SteelGrade) (cover : ℚ)
    (support : SupportType) : SlabResult :=
  let fck := conc.fck
  let fcd := fck / GAMMA_C
  let fyd := st.fyk / GAMMA_S
  let h_mm := thickness * 1000
  let d_mm := slab_d_x thickness cover
  let d2_mm := slab_d_y thickness cover
  let ratio := ly / lx
  let q_Ed := combine g q
  let is_one_way : Bool := decide (2 < ratio ∨ support = SupportType.one_way)
  let As_min := slab_As_min thickness cover conc st
  let branch : Option OneWayData × Option TwoWayData × ℝ :=
    if is_one_way then
      let M_s := M_Ed_span q_Ed lx support
      let M_sup := M_Ed_support q_Ed lx support
      let As_span : ℝ := slab_As M_s d_mm fcd fyd As_min
      let As_transverse : ℝ := max (0.2 * As_span) ((As_min : ℝ))
      let supd : Option ℝ × Option (List SlabProposal) :=
        if 0 < M_sup then
          let As_sup := slab_As M_sup d_mm fcd fyd As_min
          (some As_sup, some (select_reinforcement As_sup h_mm ("main")))
        else (none, none)
      (some { M_Ed_span_x := M_s, M_Ed_support_x := M_sup,
              mu_span := slab_mu M_s d_mm fcd,
              As_span_x := As_span, As_transverse := As_transverse,
              As_min := As_min,
              reinf_span_x := select_reinforcement As_span h_mm ("main"),
              reinf_transverse := select_reinforcement As_transverse h_mm ("secondary"),
              As_support_x := supd.1, reinf_support_x := supd.2 },
       none, As_span)
    else
      let coeffs :=
        if support = SupportType.all_fixed then interpolate_coeff COEFF_ALL_FIXED ratio
        else interpolate_coeff COEFF_SIMPLY_SUPPORTED ratio
      let alpha_x := coeffs.1
      let alpha_y := coeffs.2
      let M_x := alpha_x * q_Ed * lx ^ 2
      let M_y := alpha_y * q_Ed * lx ^ 2
      let M_x_sup : ℚ := if support = SupportType.all_fixed then 1.33 * M_x else 0
      let M_y_sup : ℚ := if support = SupportType.all_fixed then 1.33 * M_y else 0
      let As_x : ℝ := slab_As M_x d_mm fcd fyd As_min
      let As_y : ℝ := slab_As M_y d2_mm fcd fyd As_min
      let supd : Option ℝ × Option ℝ × Option (List SlabProposal) ×
          Option (List SlabProposal) :=
        if 0 < M_x_sup then
          let As_x_sup := slab_As M_x_sup d_mm fcd fyd As_min
          let As_y_sup := slab_As M_y_sup d2_mm fcd fyd As_min
          (some As_x_sup, some As_y_sup,
           some (select_reinforcement As_x_sup h_mm ("main")),
           some (select_reinforcement As_y_sup h_mm ("main")))
        else (none, none, none, none)
      (none,
       some { alpha_x := alpha_x, alpha_y := alpha_y,
              M_Ed_x := M_x, M_Ed_y := M_y,
              M_Ed_x_sup := M_x_sup, M_Ed_y_sup := M_y_sup,
              mu_x := slab_mu M_x d_mm fcd, mu_y := slab_mu M_y d2_mm fcd,
              As_x := As_x, As_y := As_y, As_min := As_min,
              reinf_x := select_reinforcement As_x h_mm ("main"),
              reinf_y := select_reinforcement As_y h_mm ("main"),
              As_x_sup := supd.1, As_y_sup := supd.2.1,
              reinf_x_sup := supd.2.2.1, reinf_y_sup := supd.2.2.2 },
       max As_x As_y)
  let rho : ℝ := branch.2.2 / (1000 * (d_mm : ℝ))
  let rho_0 : ℝ := 1e-3 * Real.sqrt (fck : ℝ)
  let K : ℚ := if support = SupportType.all_fixed then 1.3 else 1.0
  let Ld_basic0 : ℝ :=
    if rho ≤ rho_0 then
      (K : ℝ) * (11 + 1.5 * Real.sqrt (fck : ℝ) * rho_0 / rho)
    else
      (K : ℝ) * (11 + 1.5 * Real.sqrt (fck : ℝ) * rho_0 / (rho - rho_0))
  let Ld_basic : ℝ := min Ld_basic0 ((40 * K : ℚ) : ℝ)
  let L_eff : ℚ := if is_one_way then lx else min lx ly
  let Ld_actual : ℚ := L_eff * 1000 / d_mm
  { ratio := ratio, q_Ed := q_Ed, d_x := d_mm, d_y := d2_mm,
    is_one_way := is_one_way,
    oneWayData := branch.1, twoWayData := branch.2.1,
    Ld_basic := Ld_basic, Ld_actual := Ld_actual,
    deflection_ok := decide ((Ld_actual : ℝ) ≤ Ld_basic) }

/-- calculate_slab with the grade lookups of lines 133-134; none models
    the dict KeyError on an unknown grade name. -/
noncomputable def calculate_slab (lx ly thickness g q : ℚ)
    (concrete steel : String) (cover : ℚ) (support : SupportType) :
    Option SlabResult :=
  match CONCRETE_GRADES.lookup concrete, STEEL_GRADES.lookup steel with
  | some conc, some st =>
      some (calculate_slab_with_grades lx ly thickness g q conc st cover support)
  | _, _ => none

end SlabDesign

namespace ColumnDesign

/-- One concrete grade record of column_design.py's CONCRETE_GRADES
    (lines 21-27; five grades). -/
structure ConcreteGrade where
  fck : ℚ
  fctm : ℚ
  Ecm : ℚ
deriving DecidableEq, Repr

/-- One steel grade record of column_design.py's STEEL_GRADES
    (lines 29-33). -/
structure SteelGrade where
  fyk : ℚ
  Es : ℚ
deriving DecidableEq, Repr

/-- column_design.py lines 21-27. -/
def CONCRETE_GRADES : List (String × ConcreteGrade) :=
  [("C20_25", ⟨20, 2.21, 30000⟩),
   ("C25_30", ⟨25, 2.56, 31000⟩),
   ("C30_37", ⟨30, 2.90, 33000⟩),
   ("C35_45", ⟨35, 3.21, 34000⟩),
   ("C40_50", ⟨40, 3.51, 35000⟩)]

/-- column_design.py lines 29-33. -/
def STEEL_GRADES : List (String × SteelGrade) :=
  [("B500SP", ⟨500, 200000⟩),
   ("B500A", ⟨500, 200000⟩),
   ("B500B", ⟨500, 200000⟩)]

/-- One longitudinal-bar proposal dict (lines 164-170). -/
structure ColProposal where
  n : ℕ
  dia : ℚ
  As_provided : ℝ
  ratio : ℝ
  rho : ℝ

/-- The proposal loop of column_design.py lines 155-174: for each
    diameter the first even count in 4, 6, ..., 14 whose provided area
    covers the requirement AND passes the spacing check AND stays at or
    below As_max (the inner if has no break when only the area condition
    holds, so the loop keeps increasing the count until the whole
    conjunction holds). -/
noncomputable def column_proposals (As_required As_max b_mm cover Ac : ℚ) :
    List ColProposal :=
  let proposals := ([16, 20, 25, 32] : List ℚ).filterMap (fun dia =>
    (([4, 6, 8, 10, 12, 14] : List ℕ).find? (fun (n_bars : ℕ) =>
        let As_prov : ℝ := (n_bars : ℝ) * bar_area dia
        let n_per_side : ℕ := n_bars / 2
        let spacing : ℚ :=
          (b_mm - 2 * cover - 2 * 8 - dia) / max ((n_per_side : ℚ) - 1) 1
        decide ((As_required : ℝ) ≤ As_prov ∧ max dia 20 ≤ spacing ∧
          As_prov ≤ (As_max : ℝ)))).map (fun (n_bars : ℕ) =>
      { n := n_bars, dia := dia,
        As_provided := (n_bars : ℝ) * bar_area dia,
        ratio := (n_bars : ℝ) * bar_area dia / (As_required : ℝ),
        rho := (n_bars : ℝ) * bar_area dia / (Ac : ℝ) * 100 }))
  (proposals.insertionSort (fun p q => p.ratio ≤ q.ratio)).take 4

/-- Result dict of calculate_column (lines 186-203); echoed inputs and
    display rounding omitted.  (N_Rd_c of line 126 is computed by the
    source but never used nor returned, so it is not modelled.) -/
structure ColumnResult where
  l_0 : ℚ
  lam : ℝ
  lam_lim : ℝ
  second_order_needed : Bool
  n : ℚ
  e_1 : ℚ
  e_i : ℚ
  e_2 : ℚ
  e_tot : ℚ
  M_Ed_total : ℚ
  As_required : ℚ
  As_min : ℚ
  As_max : ℚ
  proposals : List ColProposal
  stirrup_dia : ℤ
  stirrup_spacing : ℤ

/-- Body of calculate_column (column_design.py lines 43-203) after the
    grade lookups. -/
noncomputable def calculate_column_with_grades (height_col b h N_Ed M_Ed : ℚ)
    (conc : ConcreteGrade) (st : SteelGrade) (cover eff_length_factor : ℚ) :
    ColumnResult :=
  let fck := conc.fck
  let fcd := fck / GAMMA_C
  let fyd := st.fyk / GAMMA_S
  let Es := st.Es
  let b_mm := b * 1000
  let h_mm := h * 1000
  let Ac := b_mm * h_mm
  let d_mm := h_mm - cover - 8 - 20 / 2
  let d2_mm := cover + 8 + 20 / 2
  let l_0 := eff_length_factor * height_col * 1000
  let lam : ℝ := (l_0 : ℝ) / ((h_mm : ℝ) / Real.sqrt 12)
  let n : ℚ := N_Ed * 1000 / (Ac * fcd)
  let lam_lim : ℝ :=
    if 0 < n then (20 * 0.7 * 1.1 * 0.7 : ℝ) / Real.sqrt (n : ℝ) else 999
  let second_order_needed : Bool := decide (lam_lim < lam)
  let e_1 : ℚ :=
    max (if 0 < N_Ed then M_Ed * 1000000 / (N_Ed * 1000) else 0)
      (max (h_mm / 30) 20)
  let e_i : ℚ := l_0 / 400
  let e_2 : ℚ :=
    if second_order_needed then
      let n_u : ℚ := 1 + fyd * 0.01 * Ac / (fcd * Ac)
      let n_bal : ℚ := 0.4
      let K_r : ℚ :=
        max (if n_bal < n_u then min ((n_u - n) / (n_u - n_bal)) 1 else 1) 0
      let K_phi : ℚ := 1
      let epsilon_yd : ℚ := fyd / Es
      let one_over_r : ℚ := K_r * K_phi * (epsilon_yd / (0.45 * d_mm))
      one_over_r * l_0 ^ 2 / 10
    else 0
  let e_tot := e_1 + e_i + e_2
  let M_Ed_total : ℚ := N_Ed * e_tot / 1000
  let z_s := d_mm - d2_mm
  let As_total_from_moment : ℚ :=
    if 0 < z_s then 2 * M_Ed_total * 1000000 / (fyd * z_s) else 0
  let e_rel : ℚ := e_tot / h_mm
  let As_total : ℚ :=
    if e_rel < 0.1 then
      max (max ((N_Ed * 1000 - 0.85 * Ac * fcd) / fyd) 0) As_total_from_moment
    else As_total_from_moment
  let As_min : ℚ := max (0.10 * N_Ed * 1000 / fyd) (0.002 * Ac)
  let As_max : ℚ := 0.04 * Ac
  let As_required : ℚ := min (max As_total As_min) As_max
  let proposals := column_proposals As_required As_max b_mm cover Ac
  let main_dia : ℚ := ((proposals.head?).map (fun p => p.dia)).getD 20
  let stirrup_dia : ℤ := max (max 6 ⌈main_dia / 4⌉) 8
  let stirrup_spacing : ℤ :=
    ⌊min (min (min (20 * main_dia) b_mm) h_mm) 400 / 10⌋ * 10
  { l_0 := l_0, lam := lam, lam_lim := lam_lim,
    second_order_needed := second_order_needed, n := n,
    e_1 := e_1, e_i := e_i, e_2 := e_2, e_tot := e_tot,
    M_Ed_total := M_Ed_total, As_required := As_required,
    As_min := As_min, As_max := As_max, proposals := proposals,
    stirrup_dia := stirrup_dia, stirrup_spacing := stirrup_spacing }

/-- calculate_column with the grade lookups of lines 44-45; none models
    the dict KeyError on an unknown grade name. -/
noncomputable def calculate_column (height_col b h N_Ed M_Ed : ℚ)
    (concrete steel : String) (cover eff_length_factor : ℚ) :
    Option ColumnResult :=
  match CONCRETE_GRADES.lookup concrete, STEEL_GRADES.lookup steel with
  | some conc, some st =>
      some (calculate_column_with_grades height_col b h N_Ed M_Ed conc st
        cover eff_length_factor)
  | _, _ => none

end ColumnDesign

namespace SteelBeam

/-- One profile record of steel_beam.py's PROFILES (lines 24-55). -/
structure SteelProfile where
  h : ℚ
  b : ℚ
  tw : ℚ
  tf : ℚ
  Iy : ℚ
  Wely : ℚ
  Wply : ℚ
  Av : ℚ
  mass : ℚ
deriving DecidableEq, Repr

/-- steel_beam.py lines 25-38, the IPE series. -/
def PROFILES_IPE : List (String × SteelProfile) :=
  [("IPE200", ⟨200, 100, 5.6, 8.5, 1943, 194.3, 220.6, 14.0, 22.4⟩),
   ("IPE220", ⟨220, 110, 5.9, 9.2, 2772, 252.0, 285.4, 16.3, 26.2⟩),
   ("IPE240", ⟨240, 120, 6.2, 9.8, 3892, 324.3, 366.6, 18.5, 30.7⟩),
   ("IPE270", ⟨270, 135, 6.6, 10.2, 5790, 428.9, 484.0, 22.1, 36.1⟩),
   ("IPE300", ⟨300, 150, 7.1, 10.7, 8356, 557.1, 628.4, 26.2, 42.2⟩),
   ("IPE330", ⟨330, 160, 7.5, 11.5, 11770, 713.1, 804.3, 30.8, 49.1⟩),
   ("IPE360", ⟨360, 170, 8.0, 12.7, 16270, 903.6, 1019, 35.1, 57.1⟩),
   ("IPE400", ⟨400, 180, 8.6, 13.5, 23130, 1156, 1307, 42.7, 66.3⟩),
   ("IPE450", ⟨450, 190, 9.4, 14.6, 33740, 1500, 1702, 51.0, 77.6⟩),
   ("IPE500", ⟨500, 200, 10.2, 16.0, 48200, 1928, 2194, 59.9, 90.7⟩),
   ("IPE550", ⟨550, 210, 11.1, 17.2, 67120, 2441, 2787, 71.7, 106⟩),
   ("IPE600", ⟨600, 220, 12.0, 19.0, 92080, 3069, 3512, 83.8, 122⟩)]

/-- steel_beam.py lines 39-46, the HEA series. -/
def PROFILES_HEA : List (String × SteelProfile) :=
  [("HEA200", ⟨190, 200, 6.5, 10.0, 3692, 388.6, 429.5, 15.3, 42.3⟩),
   ("HEA240", ⟨230, 240, 7.5, 12.0, 7763, 675.1, 744.6, 21.1, 60.3⟩),
   ("HEA280", ⟨270, 280, 8.0, 13.0, 13670, 1013, 1112, 26.4, 76.4⟩),
   ("HEA300", ⟨290, 300, 8.5, 14.0, 18260, 1260, 1383, 29.8, 88.3⟩),
   ("HEA360", ⟨350, 300, 10.0, 17.5, 33090, 1891, 2088, 41.6, 112⟩),
   ("HEA400", ⟨390, 300, 11.0, 19.0, 45070, 2311, 2562, 49.2, 125⟩)]

/-- steel_beam.py lines 47-54, the HEB series. -/
def PROFILES_HEB : List (String × SteelProfile) :=
  [("HEB200", ⟨200, 200, 9.0, 15.0, 5696, 569.6, 642.5, 22.5, 61.3⟩),
   ("HEB240", ⟨240, 240, 10.0, 17.0, 11260, 938.3, 1053, 30.0, 83.2⟩),
   ("HEB280", ⟨280, 280, 10.5, 18.0, 19270, 1376, 1534, 37.0, 103⟩),
   ("HEB300", ⟨300, 300, 11.0, 19.0, 25170, 1678, 1869, 41.3, 117⟩),
   ("HEB360", ⟨360, 300, 12.5, 22.5, 43190, 2400, 2683, 54.1, 142⟩),
   ("HEB400", ⟨400, 300, 13.5, 24.0, 57680, 2884, 3232, 63.1, 155⟩)]

/-- The three series keyed by name (the PROFILES dict of line 24). -/
def PROFILES : List (String × List (String × SteelProfile)) :=
  [("IPE", PROFILES_IPE), ("HEA", PROFILES_HEA), ("HEB", PROFILES_HEB)]

/-- One steel grade record of steel_beam.py's STEEL_GRADES (lines 57-62). -/
structure SteelGrade where
  fy : ℚ
  fu : ℚ
deriving DecidableEq, Repr

/-- steel_beam.py lines 57-62. -/
def STEEL_GRADES : List (String × SteelGrade) :=
  [("S235", ⟨235, 360⟩),
   ("S275", ⟨275, 430⟩),
   ("S355", ⟨355, 510⟩),
   ("S460", ⟨460, 550⟩)]

/-- steel_beam.py line 66. -/
def GAMMA_M0 : ℚ := 1.00

/-- steel_beam.py line 67. -/
def E_STEEL : ℚ := 210000

/-- sorted(profiles.items(), key=lambda x: x[1]["mass"]) of line 93. -/
def sort_by_mass (l : List (String × SteelProfile)) :
    List (String × SteelProfile) :=
  l.insertionSort (fun a b => a.2.mass ≤ b.2.mass)

/-- One candidate dict of select_beam (lines 110-122). -/
structure SteelCandidate where
  name : String
  mass : ℚ
  h : ℚ
  Wply : ℚ
  Iy : ℚ
  M_pl_Rd : ℚ
  V_pl_Rd : ℝ
  delta_mm : ℚ
  L_over_delta : ℚ
  util_M : ℚ
  util_V : ℝ

/-- Result dict of select_beam (lines 124-138); echoed inputs omitted. -/
structure SteelResult where
  q_Ed : ℚ
  M_Ed : ℚ
  V_Ed : ℚ
  Wply_req : ℚ
  Iy_req : ℚ
  candidates : List SteelCandidate

/-- Plastic shear capacity V_pl_Rd of one profile in kN (line 98). -/
noncomputable def V_pl_Rd_of (p : SteelProfile) (fy : ℚ) : ℝ :=
  (p.Av : ℝ) * 100 * (fy : ℝ) / (Real.sqrt 3 * (GAMMA_M0 : ℝ)) / 1000

/-- Body of select_beam (steel_beam.py lines 70-138) after the grade and
    series lookups. -/
noncomputable def select_beam_with_profiles (span g q : ℚ)
    (st : SteelGrade) (profiles : List (String × SteelProfile))
    (deflection_limit : ℚ) : SteelResult :=
  let fy := st.fy
  let q_Ed := combine g q
  let q_char := g + q
  let M_Ed := q_Ed * span ^ 2 / 8
  let V_Ed := q_Ed * span / 2
  let Wply_req : ℚ := M_Ed * 1000 / (fy / GAMMA_M0)
  let delta_max : ℚ := span * 1000 / deflection_limit
  let Iy_req : ℚ :=
    5 * q_char * span ^ 4 * 1000000000000 / (384 * E_STEEL * delta_max) / 10000
  let candidates := (sort_by_mass profiles).filterMap
    (fun np =>
      let p := np.2
      let V_pl_Rd := V_pl_Rd_of p fy
      if Wply_req ≤ p.Wply ∧ Iy_req ≤ p.Iy ∧ (V_Ed : ℝ) ≤ V_pl_Rd then
        let delta_actual : ℚ :=
          5 * q_char * span ^ 4 * 1000000000000 / (384 * E_STEEL * p.Iy * 10000)
        let ratio_actual : ℚ :=
          if 0 < delta_actual then span * 1000 / delta_actual else 9999
        let M_pl_Rd : ℚ := p.Wply * fy / GAMMA_M0 / 1000
        some { name := np.1, mass := p.mass, h := p.h, Wply := p.Wply,
               Iy := p.Iy, M_pl_Rd := M_pl_Rd, V_pl_Rd := V_pl_Rd,
               delta_mm := delta_actual, L_over_delta := ratio_actual,
               util_M := M_Ed / M_pl_Rd * 100,
               util_V := (V_Ed : ℝ) / V_pl_Rd * 100 }
      else none)
  { q_Ed := q_Ed, M_Ed := M_Ed, V_Ed := V_Ed, Wply_req := Wply_req,
    Iy_req := Iy_req, candidates := candidates.take 5 }

/-- select_beam with the grade and series lookups of lines 71 and 74;
    none models the dict KeyError. -/
noncomputable def select_beam (span g q : ℚ) (steel_grade series : String)
    (deflection_limit : ℚ) : Option SteelResult :=
  match STEEL_GRADES.lookup steel_grade, PROFILES.lookup series with
  | some st, some profiles =>
      some (select_beam_with_profiles span g q st profiles deflection_limit)
  | _, _ => none

end SteelBeam

/- ================= helper lemmas ================= -/

/-- A lookup misses exactly when the key is absent from the key column. -/
theorem lookup_eq_none_key {α β : Type _} [BEq α] [LawfulBEq α]
    (l : List (α × β)) (a : α) :
    l.lookup a = none ↔ a ∉ l.map Prod.fst := by
  induction l with
  | nil => simp [List.lookup]
  | cons hd tl ih =>
    rcases hd with ⟨k, v⟩
    simp only [List.lookup, List.map_cons, List.mem_cons]
    by_cases h : a = k
    · subst h; simp
    · have hb : (a == k) = false := beq_false_of_ne h
      simp [hb, ih, h]

/-- A successful lookup returns an entry of the table. -/
theorem mem_of_lookup_eq_some {α β : Type _} [BEq α] [LawfulBEq α]
    {l : List (α × β)} {a : α} {b : β} (h : l.lookup a = some b) :
    (a, b) ∈ l := by
  induction l with
  | nil => simp [List.lookup] at h
  | cons hd tl ih =>
    rcases hd with ⟨k, v⟩
    simp only [List.lookup] at h
    by_cases hk : a = k
    · subst hk
      simp only [beq_self_eq_true] at h
      simp only [List.mem_cons]
      exact Or.inl (by simpa using congrArg (Prod.mk a) (Option.some.inj h).symm)
    · have hb : (a == k) = false := beq_false_of_ne hk
      rw [hb] at h
      exact List.mem_cons_of_mem _ (ih h)

/-- A successful lookup means the key occurs in the key column. -/
theorem key_mem_of_lookup_eq_some {α β : Type _} [BEq α] [LawfulBEq α]
    {l : List (α × β)} {a : α} {b : β} (h : l.lookup a = some b) :
    a ∈ l.map Prod.fst := by
  exact List.mem_map_of_mem Prod.fst (mem_of_lookup_eq_some h)

/-- Lookup at the head key. -/
theorem lookup_cons_self {α β : Type _} [BEq α] [LawfulBEq α] (k : α) (v : β)
    (l : List (α × β)) : ((k, v) :: l).lookup k = some v := by
  simp [List.lookup]

/-- Lookup skips a head entry with a different key. -/
theorem lookup_cons_ne {α β : Type _} [BEq α] [LawfulBEq α] {a k : α}
    (h : a ≠ k) (v : β) (l : List (α × β)) :
    ((k, v) :: l).lookup a = l.lookup a := by
  simp [List.lookup, beq_false_of_ne h]

/-- With duplicate-free keys, membership determines the lookup result. -/
theorem lookup_eq_some_of_mem {α β : Type _} [BEq α] [LawfulBEq α]
    {l : List (α × β)} (hnd : (l.map Prod.fst).Nodup) {a : α} {b : β}
    (h : (a, b) ∈ l) : l.lookup a = some b := by
  induction l with
  | nil => simp at h
  | cons hd tl ih =>
    rcases hd with ⟨k, v⟩
    rcases List.mem_cons.mp h with heq | htl
    · obtain ⟨h1, h2⟩ := Prod.mk.injEq .. ▸ heq
      subst h1; subst h2
      exact lookup_cons_self a b tl
    · have hnd2 : (k :: tl.map Prod.fst).Nodup := by simpa using hnd
      have hkeys := List.nodup_cons.mp hnd2
      have hne : a ≠ k := by
        intro hak
        subst hak
        exact hkeys.1 (List.mem_map_of_mem Prod.fst htl)
      rw [lookup_cons_ne hne]
      exact ih hkeys.2 htl

/-- interpolate_coeff depends on its ratio argument only through the
    clamp min (max ratio 1) 2. -/
theorem interpolate_coeff_congr_clamp (table : List (ℚ × ℚ × ℚ)) (r s : ℚ)
    (h : min (max r 1) 2 = min (max s 1) 2) :
    SlabDesign.interpolate_coeff table r = SlabDesign.interpolate_coeff table s := by
  simp only [SlabDesign.interpolate_coeff]
  rw [h]

/-- At a ratio in [1, 2] whose tenfold is an integer, interpolate_coeff
    returns the looked-up table entry exactly. -/
theorem interpolate_coeff_at_int (table : List (ℚ × ℚ × ℚ)) (r : ℚ)
    (c : ℚ × ℚ) (h1 : 1 ≤ r) (h2 : r ≤ 2)
    (hz : r * 10 = (⌊r * 10⌋ : ℚ)) (hlook : table.lookup r = some c) :
    SlabDesign.interpolate_coeff table r = c := by
  have hclamp : min (max r 1) 2 = r := by
    rw [max_eq_left h1]; exact min_eq_left h2
  have hceil : ⌈r * 10⌉ = ⌊r * 10⌋ := by
    rw [hz]; simp
  have hround : round (r * 10) = ⌊r * 10⌋ := by
    rw [hz]; simp
  have hr : (⌊r * 10⌋ : ℚ) / 10 = r := by
    rw [← hz]; field_simp
  simp only [SlabDesign.interpolate_coeff, SlabDesign.round1]
  rw [hclamp, hceil, hround, hr, hlook]
  simp

/-- At a ratio strictly between two adjacent tabulated keys,
    interpolate_coeff returns the linear interpolation of their entries. -/
theorem interpolate_coeff_lerp (table : List (ℚ × ℚ × ℚ)) (r : ℚ)
    (c_low c_high : ℚ × ℚ) (h1 : 1 ≤ r) (h2 : r ≤ 2)
    (hne : ⌊r * 10⌋ ≠ ⌈r * 10⌉)
    (hlow : table.lookup ((⌊r * 10⌋ : ℚ) / 10) = some c_low)
    (hhigh : table.lookup ((⌈r * 10⌉ : ℚ) / 10) = some c_high) :
    SlabDesign.interpolate_coeff table r =
      (c_low.1 + (r - (⌊r * 10⌋ : ℚ) / 10) /
          ((⌈r * 10⌉ : ℚ) / 10 - (⌊r * 10⌋ : ℚ) / 10) * (c_high.1 - c_low.1),
       c_low.2 + (r - (⌊r * 10⌋ : ℚ) / 10) /
          ((⌈r * 10⌉ : ℚ) / 10 - (⌊r * 10⌋ : ℚ) / 10) * (c_high.2 - c_low.2)) := by
  have hclamp : min (max r 1) 2 = r := by
    rw [max_eq_left h1]; exact min_eq_left h2
  have hqne : ((⌊r * 10⌋ : ℚ) / 10) ≠ ((⌈r * 10⌉ : ℚ) / 10) := by
    intro hbad
    apply hne
    field_simp at hbad
    exact_mod_cast hbad
  simp only [SlabDesign.interpolate_coeff]
  rw [hclamp]
  rw [if_neg (by simp [hqne, hlow])]
  rw [hlow, hhigh]
  rw [if_pos (Ne.symm hqne)]

/-- Keys of COEFF_SIMPLY_SUPPORTED are duplicate-free. -/
theorem coeff_ss_keys_nodup :
    ((SlabDesign.COEFF_SIMPLY_SUPPORTED.map Prod.fst).Nodup) := by
  simp [SlabDesign.COEFF_SIMPLY_SUPPORTED, List.nodup_cons, List.mem_cons]
  norm_num

/-- Keys of COEFF_ALL_FIXED are duplicate-free. -/
theorem coeff_af_keys_nodup :
    ((SlabDesign.COEFF_ALL_FIXED.map Prod.fst).Nodup) := by
  simp [SlabDesign.COEFF_ALL_FIXED, List.nodup_cons, List.mem_cons]
  norm_num

/-- At or above the over-capacity threshold mu = 0.5 the slab xi
    expression is clamped to 0.5. -/
theorem xi_of_clamp (mu : ℚ) (h : 1 / 2 ≤ mu) : SlabDesign.xi_of mu = 1 / 2 := by
  unfold SlabDesign.xi_of
  rw [if_neg (by rw [not_lt]; exact_mod_cast le_trans (by norm_num) h)]
  norm_num

/-- cot(45 degrees) evaluates to 1. -/
theorem cot_theta_45_eq_one : BeamShear.cot_theta 45 = 1 := by
  unfold BeamShear.cot_theta
  rw [show ((45 : ℚ) : ℝ) * Real.pi / 180 = Real.pi / 4 by push_cast; ring,
    Real.tan_pi_div_four]
  norm_num

/-- The strut capacity of the 0.30 x 0.50 C30_37 section at 45 degrees
    (712.8 kN) is below 10000 kN. -/
theorem shear_V_Rd_max_example :
    BeamShear.shear_V_Rd_max 0.3 0.5 ⟨30, 2.90⟩ 45 < ((10000 : ℚ) : ℝ) := by
  simp only [BeamShear.shear_V_Rd_max]
  rw [cot_theta_45_eq_one]
  push_cast [GAMMA_C]
  norm_num

/-- The unreinforced shear capacity of the same section with As_l = 0 is
    below 10000 kN (the rho_l term vanishes and the v_min floor is under
    130 kN). -/
theorem shear_V_Rd_c_example :
    BeamShear.shear_V_Rd_c 0.3 0.5 ⟨30, 2.90⟩ 0 < ((10000 : ℚ) : ℝ) := by
  have hk0 : 0 ≤ BeamShear.shear_k 0.5 := by
    unfold BeamShear.shear_k
    exact le_min (by positivity) (by norm_num)
  have hk2 : BeamShear.shear_k 0.5 ≤ 2 := min_le_right _ _
  have hk32 : BeamShear.shear_k 0.5 ^ ((1.5 : ℝ)) ≤ 4 := by
    calc BeamShear.shear_k 0.5 ^ ((1.5 : ℝ)) ≤ (2 : ℝ) ^ ((1.5 : ℝ)) :=
          Real.rpow_le_rpow hk0 hk2 (by norm_num)
      _ ≤ (2 : ℝ) ^ ((2 : ℝ)) :=
          Real.rpow_le_rpow_of_exponent_le (by norm_num) (by norm_num)
      _ = 4 := by
          rw [show ((2 : ℝ)) = ((2 : ℕ) : ℝ) by norm_num,
            Real.rpow_natCast]
          norm_num
  have h30 : ((30 : ℝ)) ^ ((0.5 : ℝ)) ≤ 6 := by
    have ht : (((30 : ℝ)) ^ ((0.5 : ℝ))) ^ (2 : ℕ) = 30 := by
      rw [← Real.rpow_natCast (((30 : ℝ)) ^ ((0.5 : ℝ))) 2,
        ← Real.rpow_mul (by norm_num : (0 : ℝ) ≤ 30)]
      norm_num
    nlinarith [Real.rpow_nonneg (by norm_num : (0 : ℝ) ≤ 30) ((0.5 : ℝ)),
      sq_nonneg (((30 : ℝ)) ^ ((0.5 : ℝ)) - 6)]
  simp only [BeamShear.shear_V_Rd_c]
  rw [if_neg (by norm_num)]
  have hX : ((100 * (0 : ℚ) * 30 : ℚ) : ℝ) = 0 := by push_cast; ring
  rw [hX, Real.zero_rpow (by norm_num : (1 : ℝ) / 3 ≠ 0)]
  apply max_lt
  · push_cast
    nlinarith [hk0, hk2]
  · push_cast
    nlinarith [hk32, h30, Real.rpow_nonneg (by norm_num : (0 : ℝ) ≤ 30)
      ((0.5 : ℝ)), Real.rpow_nonneg hk0 ((1.5 : ℝ))]

/-- The stirrup pick at Asw/s = 460/9 and s_max = 375 selects diameter 8
    at the 50 mm minimum spacing. -/
theorem pick_stirrup_example :
    BeamShear.pick_stirrup (460 / 9) 375 = (8, 50) := by
  unfold BeamShear.pick_stirrup
  rw [if_pos (by push_cast; nlinarith [Real.pi_lt_315, Real.pi_pos])]
  have hfl : ⌊2 * Real.pi * (8 : ℝ) ^ 2 / 4 / (460 / 9) / 10⌋ = 0 := by
    rw [Int.floor_eq_iff]
    constructor
    · push_cast
      positivity
    · push_cast
      nlinarith [Real.pi_lt_315]
  rw [hfl]
  norm_num

/-- In each profile series, ordering by mass also orders the plastic
    modulus Wply (a fact of the concrete catalog data). -/
theorem profiles_mass_wply_mono (pr : List (String × SteelBeam.SteelProfile))
    (hpr : pr = SteelBeam.PROFILES_IPE ∨ pr = SteelBeam.PROFILES_HEA ∨
      pr = SteelBeam.PROFILES_HEB) :
    ∀ a ∈ pr, ∀ b ∈ pr, a.2.mass ≤ b.2.mass → a.2.Wply ≤ b.2.Wply := by
  rcases hpr with h | h | h <;> subst h <;>
    (intro a ha b hb; fin_cases ha <;> fin_cases hb <;> norm_num)

/-- In each profile series the profile names are pairwise distinct. -/
theorem profiles_names_nodup (pr : List (String × SteelBeam.SteelProfile))
    (hpr : pr = SteelBeam.PROFILES_IPE ∨ pr = SteelBeam.PROFILES_HEA ∨
      pr = SteelBeam.PROFILES_HEB) :
    pr.Pairwise (fun a b => a.1 ≠ b.1) := by
  rcases hpr with h | h | h <;> subst h <;> decide

/-- The ratio-ordered insertion sort of bar proposals is empty exactly
    when its input is. -/
theorem insertionSort_ratio_eq_nil_iff (l : List BeamBending.BarProposal) :
    (List.insertionSort
      (fun p q : BeamBending.BarProposal => p.ratio ≤ q.ratio) l = []) ↔
    l = [] := by
  constructor
  · intro h
    have hp := List.perm_insertionSort
      (fun p q : BeamBending.BarProposal => p.ratio ≤ q.ratio) l
    rw [h] at hp
    exact hp.symm.eq_nil
  · intro h
    rw [h]
    rfl

/-- For a 50 mm2 requirement every admissible bar diameter needs only a
    single bar: the minimal count is 1. -/
theorem ceil_50_over_bar_area (dia : ℚ) (hdia : 12 ≤ dia) :
    ⌈(50 : ℝ) / bar_area dia⌉ = 1 := by
  have hdr : (12 : ℝ) ≤ (dia : ℝ) := by exact_mod_cast hdia
  have hpos : (0 : ℝ) < bar_area dia := by
    unfold bar_area
    apply div_pos (mul_pos Real.pi_pos (by nlinarith)) (by norm_num)
  rw [Int.ceil_eq_iff]
  constructor
  · have h0 : (0 : ℝ) < 50 / bar_area dia := div_pos (by norm_num) hpos
    push_cast
    linarith
  · push_cast
    rw [div_le_one hpos]
    unfold bar_area
    nlinarith [Real.pi_gt_d2, mul_self_nonneg ((dia : ℝ) - 12)]

/-- For a required area between 694 and 703 mm2 on a 300 mm wide beam
    with 35 mm cover, diameter 16 yields a feasible proposal (its minimal
    count lies between 2 and 5 and fits the width), so the search result
    is non-empty. -/
theorem find_bars_nonempty_of_mid (E : ℝ) (hlo : (694 : ℝ) < E)
    (hhi : E < 703) : BeamBending.find_bars E (0.3 * 1000) 35 8 ≠ [] := by
  intro hnil
  simp only [BeamBending.find_bars] at hnil
  rw [List.take_eq_nil_iff, insertionSort_ratio_eq_nil_iff,
    List.filterMap_eq_nil_iff] at hnil
  rcases hnil with h5 | hall
  · norm_num at h5
  · have h16 := hall 16 (by norm_num [BeamBending.BAR_DIAMETERS])
    rw [if_neg (by norm_num)] at h16
    have hpos : (0 : ℝ) < bar_area 16 := by
      unfold bar_area
      positivity
    have hceil5 : ⌈E / bar_area 16⌉ ≤ 5 := by
      rw [Int.ceil_le]
      rw [div_le_iff hpos]
      unfold bar_area
      nlinarith [Real.pi_gt_d2]
    have hceil2 : 2 ≤ ⌈E / bar_area 16⌉ := by
      have h1 : (1 : ℤ) < ⌈E / bar_area 16⌉ := by
        rw [Int.lt_ceil]
        rw [lt_div_iff hpos]
        unfold bar_area
        nlinarith [Real.pi_lt_d2]
      omega
    split at h16
    · simp at h16
    · next hng =>
      refine hng ⟨?_, hceil2⟩
      have hc5 : ((⌈E / bar_area 16⌉ : ℤ) : ℚ) ≤ 5 := by exact_mod_cast hceil5
      rw [show max (25 : ℚ) 16 = 25 from max_eq_left (by norm_num)]
      nlinarith [hc5]

/-- Every column proposal passes the exact guard of the search loop:
    provided at least the requirement and at most As_max. -/
theorem column_proposals_bounds (AR AM b c Ac : ℚ) :
    ∀ p ∈ ColumnDesign.column_proposals AR AM b c Ac,
      (AR : ℝ) ≤ p.As_provided ∧ p.As_provided ≤ (AM : ℝ) := by
  intro p hp
  simp only [ColumnDesign.column_proposals] at hp
  have hp2 := List.mem_of_mem_take hp
  rw [List.mem_insertionSort] at hp2
  rcases List.mem_filterMap.mp hp2 with ⟨dia, hdia, hfd⟩
  rcases Option.map_eq_some'.mp hfd with ⟨n, hfind, hgn⟩
  have hpred := List.find?_some hfind
  rw [decide_eq_true_eq] at hpred
  rw [← hgn]
  exact ⟨hpred.1, hpred.2.2⟩

/-- For a required area between 7042 and 7046 mm2 on a 600 mm wide beam
    with 10 mm cover, only diameter 32 is feasible (nine bars, 544 mm of
    564 mm used) and the single returned proposal provides 2304*pi mm2,
    which exceeds 7200 mm2. -/
theorem find_bars_single_of_big (E : ℝ) (hlo : (7042 : ℝ) < E)
    (hhi : E < 7046) :
    ∃ p, BeamBending.find_bars E (0.6 * 1000) 10 8 = [p] ∧
      (7200 : ℝ) < p.As_provided := by
  have hpos : ∀ d : ℚ, 12 ≤ d → (0 : ℝ) < bar_area d := by
    intro d hd
    have hdr : (12 : ℝ) ≤ (d : ℝ) := by exact_mod_cast hd
    unfold bar_area
    exact div_pos (mul_pos Real.pi_pos (by nlinarith)) (by norm_num)
  have hc12 : (15 : ℤ) < ⌈E / bar_area 12⌉ :=
    Int.lt_ceil.mpr ((lt_div_iff (hpos 12 (by norm_num))).mpr
      (by unfold bar_area; push_cast; nlinarith [Real.pi_lt_d2]))
  have hc16 : (14 : ℤ) < ⌈E / bar_area 16⌉ :=
    Int.lt_ceil.mpr ((lt_div_iff (hpos 16 (by norm_num))).mpr
      (by unfold bar_area; push_cast; nlinarith [Real.pi_lt_d2]))
  have hc20 : (13 : ℤ) < ⌈E / bar_area 20⌉ :=
    Int.lt_ceil.mpr ((lt_div_iff (hpos 20 (by norm_num))).mpr
      (by unfold bar_area; push_cast; nlinarith [Real.pi_lt_d2]))
  have hc25 : (11 : ℤ) < ⌈E / bar_area 25⌉ :=
    Int.lt_ceil.mpr ((lt_div_iff (hpos 25 (by norm_num))).mpr
      (by unfold bar_area; push_cast; nlinarith [Real.pi_lt_d2]))
  have hc32 : ⌈E / bar_area 32⌉ = 9 := by
    rw [Int.ceil_eq_iff]
    constructor
    · rw [lt_div_iff (hpos 32 (by norm_num))]
      unfold bar_area
      push_cast
      nlinarith [Real.pi_lt_d2]
    · rw [div_le_iff (hpos 32 (by norm_num))]
      unfold bar_area
      push_cast
      nlinarith [Real.pi_gt_d2]
  have hg12 : ¬((⌈E / bar_area 12⌉ : ℚ) * 12 +
      ((⌈E / bar_area 12⌉ : ℚ) - 1) * max 25 12 ≤
        0.6 * 1000 - 2 * 10 - 2 * 8 ∧ 2 ≤ ⌈E / bar_area 12⌉) := by
    rintro ⟨hsp, -⟩
    have hq : (16 : ℚ) ≤ (⌈E / bar_area 12⌉ : ℚ) := by exact_mod_cast hc12
    rw [max_eq_left (by norm_num)] at hsp
    nlinarith [hq]
  have hg16 : ¬((⌈E / bar_area 16⌉ : ℚ) * 16 +
      ((⌈E / bar_area 16⌉ : ℚ) - 1) * max 25 16 ≤
        0.6 * 1000 - 2 * 10 - 2 * 8 ∧ 2 ≤ ⌈E / bar_area 16⌉) := by
    rintro ⟨hsp, -⟩
    have hq : (15 : ℚ) ≤ (⌈E / bar_area 16⌉ : ℚ) := by exact_mod_cast hc16
    rw [max_eq_left (by norm_num)] at hsp
    nlinarith [hq]
  have hg20 : ¬((⌈E / bar_area 20⌉ : ℚ) * 20 +
      ((⌈E / bar_area 20⌉ : ℚ) - 1) * max 25 20 ≤
        0.6 * 1000 - 2 * 10 - 2 * 8 ∧ 2 ≤ ⌈E / bar_area 20⌉) := by
    rintro ⟨hsp, -⟩
    have hq : (14 : ℚ) ≤ (⌈E / bar_area 20⌉ : ℚ) := by exact_mod_cast hc20
    rw [max_eq_left (by norm_num)] at hsp
    nlinarith [hq]
  have hg25 : ¬((⌈E / bar_area 25⌉ : ℚ) * 25 +
      ((⌈E / bar_area 25⌉ : ℚ) - 1) * max 25 25 ≤
        0.6 * 1000 - 2 * 10 - 2 * 8 ∧ 2 ≤ ⌈E / bar_area 25⌉) := by
    rintro ⟨hsp, -⟩
    have hq : (12 : ℚ) ≤ (⌈E / bar_area 25⌉ : ℚ) := by exact_mod_cast hc25
    rw [max_eq_left (by norm_num)] at hsp
    nlinarith [hq]
  have hg32 : ((⌈E / bar_area 32⌉ : ℚ) * 32 +
      ((⌈E / bar_area 32⌉ : ℚ) - 1) * max 25 32 ≤
        0.6 * 1000 - 2 * 10 - 2 * 8 ∧ 2 ≤ ⌈E / bar_area 32⌉) := by
    rw [hc32]
    norm_num
  simp only [BeamBending.find_bars, BeamBending.BAR_DIAMETERS,
    List.filterMap_cons, List.filterMap_nil]
  rw [if_pos (show (8 : ℚ) < 12 by norm_num),
    if_pos (show (10 : ℚ) < 12 by norm_num),
    if_neg (show ¬(12 : ℚ) < 12 by norm_num), if_neg hg12,
    if_neg (show ¬(16 : ℚ) < 12 by norm_num), if_neg hg16,
    if_neg (show ¬(20 : ℚ) < 12 by norm_num), if_neg hg20,
    if_neg (show ¬(25 : ℚ) < 12 by norm_num), if_neg hg25,
    if_neg (show ¬(32 : ℚ) < 12 by norm_num), if_pos hg32]
  refine ⟨_, rfl, ?_⟩
  show (7200 : ℝ) < (⌈E / bar_area 32⌉ : ℝ) * bar_area 32
  rw [hc32]
  unfold bar_area
  push_cast
  nlinarith [Real.pi_gt_d2]

/-- The insertion sort of column proposals by ratio is empty iff the
    input list is empty. -/
theorem insertionSort_col_ratio_eq_nil_iff (l : List ColumnDesign.ColProposal) :
    (List.insertionSort
      (fun p q : ColumnDesign.ColProposal => p.ratio ≤ q.ratio) l = []) ↔
    l = [] := by
  constructor
  · intro h
    have hp := List.perm_insertionSort
      (fun p q : ColumnDesign.ColProposal => p.ratio ≤ q.ratio) l
    rw [h] at hp
    exact hp.symm.eq_nil
  · intro h
    rw [h]
    rfl

/-- For As_required = 500, As_max = 10000, b_mm = 500, cover 30 the column
    proposal search is nonempty: four 16 mm bars already pass the whole
    guard (area 256*pi >= 500, spacing 408 >= 20, area <= 10000). -/
theorem column_proposals_16_nonempty :
    ColumnDesign.column_proposals 500 10000 500 30 250000 ≠ [] := by
  intro hnil
  simp only [ColumnDesign.column_proposals] at hnil
  rw [List.take_eq_nil_iff, insertionSort_col_ratio_eq_nil_iff,
    List.filterMap_eq_nil_iff] at hnil
  rcases hnil with h4 | hall
  · norm_num at h4
  · have h16 := hall 16 (by norm_num)
    rw [Option.map_eq_none'] at h16
    have hnone := List.find?_eq_none.mp h16 4 (by norm_num)
    apply hnone
    refine decide_eq_true ⟨?_, ?_, ?_⟩
    · push_cast
      unfold bar_area
      nlinarith [Real.pi_gt_d2]
    · norm_num
    · push_cast
      unfold bar_area
      nlinarith [Real.pi_lt_d2]

/- ================= claim theorems ================= -/

/-- C9: the Load Combinator computes design_value = GAMMA_G * permanent +
    GAMMA_Q * variable with fixed coefficients 1 < GAMMA_G < GAMMA_Q; it
    is additive and homogeneous (linear), monotonically increasing in
    both arguments (strictly in each), and combine 0 0 = 0. -/
theorem C9_combine_linear_monotone :
    ((1 < GAMMA_G ∧ GAMMA_G < GAMMA_Q) ∧
      ∀ g q : ℚ, combine g q = GAMMA_G * g + GAMMA_Q * q) ∧
    (∀ g q g2 q2 : ℚ,
      combine (g + g2) (q + q2) = combine g q + combine g2 q2) ∧
    (∀ c g q : ℚ, combine (c * g) (c * q) = c * combine g q) ∧
    (∀ g g2 q q2 : ℚ, g ≤ g2 → q ≤ q2 → combine g q ≤ combine g2 q2) ∧
    (∀ g g2 q : ℚ, g < g2 → combine g q < combine g2 q) ∧
    (∀ g q q2 : ℚ, q < q2 → combine g q < combine g q2) ∧
    combine 0 0 = 0 := by
  refine ⟨⟨⟨by norm_num [GAMMA_G], by norm_num [GAMMA_G, GAMMA_Q]⟩,
    fun g q => rfl⟩, fun g q g2 q2 => by unfold combine; ring,
    fun c g q => by unfold combine; ring, ?_, ?_, ?_, by
      unfold combine; ring⟩
  · intro g g2 q q2 hg hq
    unfold combine GAMMA_G GAMMA_Q
    nlinarith
  · intro g g2 q hg
    unfold combine GAMMA_G
    nlinarith
  · intro g q q2 hq
    unfold combine GAMMA_Q
    nlinarith

/-- Witness for C9 at concrete loads: monotonicity applied at
    (3, 5) <= (4, 7). -/
theorem C9_witness :
    (3 : ℚ) ≤ 4 ∧ (5 : ℚ) ≤ 7 ∧ combine 3 5 ≤ combine 4 7 :=
  ⟨by norm_num, by norm_num,
    C9_combine_linear_monotone.2.2.2.1 3 4 5 7 (by norm_num) (by norm_num)⟩

/-- C3: looking a material-grade name up in a catalog (as done at the
    start of calculate_beam_bending and calculate_column) fails exactly
    when the name is not a recognized key, in which case the evaluator
    aborts (returns none, the UnknownGradeError); a recognized name
    returns the catalog's entry. -/
theorem C3_lookup_contract :
    (∀ name : String,
      BeamBending.CONCRETE_GRADES.lookup name = none ↔
        name ∉ BeamBending.CONCRETE_GRADES.map Prod.fst) ∧
    (∀ name : String,
      BeamBending.STEEL_GRADES.lookup name = none ↔
        name ∉ BeamBending.STEEL_GRADES.map Prod.fst) ∧
    (∀ name g, BeamBending.CONCRETE_GRADES.lookup name = some g →
        (name, g) ∈ BeamBending.CONCRETE_GRADES) ∧
    (∀ name g, BeamBending.STEEL_GRADES.lookup name = some g →
        (name, g) ∈ BeamBending.STEEL_GRADES) ∧
    (∀ span b h g q cover (concrete steel : String),
      (BeamBending.calculate_beam_bending span b h g q concrete steel
          cover).isNone ↔
        (concrete ∉ BeamBending.CONCRETE_GRADES.map Prod.fst ∨
         steel ∉ BeamBending.STEEL_GRADES.map Prod.fst)) ∧
    (∀ name : String,
      ColumnDesign.CONCRETE_GRADES.lookup name = none ↔
        name ∉ ColumnDesign.CONCRETE_GRADES.map Prod.fst) ∧
    (∀ name g, ColumnDesign.CONCRETE_GRADES.lookup name = some g →
        (name, g) ∈ ColumnDesign.CONCRETE_GRADES) ∧
    (∀ height_col b h N_Ed M_Ed cover eff (concrete steel : String),
      (ColumnDesign.calculate_column height_col b h N_Ed M_Ed concrete
          steel cover eff).isNone ↔
        (concrete ∉ ColumnDesign.CONCRETE_GRADES.map Prod.fst ∨
         steel ∉ ColumnDesign.STEEL_GRADES.map Prod.fst)) := by
  refine ⟨fun name => lookup_eq_none_key _ _, fun name => lookup_eq_none_key _ _,
    fun name g => mem_of_lookup_eq_some, fun name g => mem_of_lookup_eq_some,
    ?_, fun name => lookup_eq_none_key _ _,
    fun name g => mem_of_lookup_eq_some, ?_⟩
  · intro span b h g q cover concrete steel
    unfold BeamBending.calculate_beam_bending
    cases hc : BeamBending.CONCRETE_GRADES.lookup concrete with
    | none =>
      cases hs : BeamBending.STEEL_GRADES.lookup steel <;>
        exact iff_of_true rfl (Or.inl ((lookup_eq_none_key _ _).mp hc))
    | some conc =>
      cases hs : BeamBending.STEEL_GRADES.lookup steel with
      | none =>
        exact iff_of_true rfl (Or.inr ((lookup_eq_none_key _ _).mp hs))
      | some st =>
        refine iff_of_false (by simp) ?_
        rintro (hbad | hbad)
        · exact hbad (key_mem_of_lookup_eq_some hc)
        · exact hbad (key_mem_of_lookup_eq_some hs)
  · intro height_col b h N_Ed M_Ed cover eff concrete steel
    unfold ColumnDesign.calculate_column
    cases hc : ColumnDesign.CONCRETE_GRADES.lookup concrete with
    | none =>
      cases hs : ColumnDesign.STEEL_GRADES.lookup steel <;>
        exact iff_of_true rfl (Or.inl ((lookup_eq_none_key _ _).mp hc))
    | some conc =>
      cases hs : ColumnDesign.STEEL_GRADES.lookup steel with
      | none =>
        exact iff_of_true rfl (Or.inr ((lookup_eq_none_key _ _).mp hs))
      | some st =>
        refine iff_of_false (by simp) ?_
        rintro (hbad | hbad)
        · exact hbad (key_mem_of_lookup_eq_some hc)
        · exact hbad (key_mem_of_lookup_eq_some hs)

/-- Witness for C3: the recognized name C30_37 looks up to its catalog
    record, which is an entry of the catalog. -/
theorem C3_witness :
    BeamBending.CONCRETE_GRADES.lookup ("C30_37") =
      some ⟨30, 2.90, 33000⟩ ∧
    ((("C30_37" : String), (⟨30, 2.90, 33000⟩ : BeamBending.ConcreteGrade)) ∈
      BeamBending.CONCRETE_GRADES) :=
  ⟨by rfl, C3_lookup_contract.2.2.1 _ _ (by rfl)⟩

/-- C6: the two-way plate coefficient interpolation returns exactly the
    tabulated pair at every tabulated span ratio of either table; below
    1.0 it returns the 1.0 boundary entry, above 2.0 the 2.0 entry (no
    extrapolation); and at a ratio strictly between two adjacent
    tabulated ratios it returns the linear interpolation of their
    entries. -/
theorem C6_interpolation :
    (∀ p ∈ SlabDesign.COEFF_SIMPLY_SUPPORTED,
        SlabDesign.interpolate_coeff SlabDesign.COEFF_SIMPLY_SUPPORTED p.1 = p.2) ∧
    (∀ p ∈ SlabDesign.COEFF_ALL_FIXED,
        SlabDesign.interpolate_coeff SlabDesign.COEFF_ALL_FIXED p.1 = p.2) ∧
    (∀ r : ℚ, r < 1 →
        SlabDesign.interpolate_coeff SlabDesign.COEFF_SIMPLY_SUPPORTED r =
          (0.0625, 0.0625) ∧
        SlabDesign.interpolate_coeff SlabDesign.COEFF_ALL_FIXED r =
          (0.0340, 0.0340)) ∧
    (∀ r : ℚ, 2 < r →
        SlabDesign.interpolate_coeff SlabDesign.COEFF_SIMPLY_SUPPORTED r =
          (0.1140, 0.0264) ∧
        SlabDesign.interpolate_coeff SlabDesign.COEFF_ALL_FIXED r =
          (0.0718, 0.0177)) ∧
    (∀ (table : List (ℚ × ℚ × ℚ)) (r : ℚ) (c_low c_high : ℚ × ℚ),
        1 ≤ r → r ≤ 2 → ⌊r * 10⌋ ≠ ⌈r * 10⌉ →
        table.lookup ((⌊r * 10⌋ : ℚ) / 10) = some c_low →
        table.lookup ((⌈r * 10⌉ : ℚ) / 10) = some c_high →
        SlabDesign.interpolate_coeff table r =
          (c_low.1 + (r - (⌊r * 10⌋ : ℚ) / 10) /
              ((⌈r * 10⌉ : ℚ) / 10 - (⌊r * 10⌋ : ℚ) / 10) * (c_high.1 - c_low.1),
           c_low.2 + (r - (⌊r * 10⌋ : ℚ) / 10) /
              ((⌈r * 10⌉ : ℚ) / 10 - (⌊r * 10⌋ : ℚ) / 10) * (c_high.2 - c_low.2))) := by
  refine ⟨?_, ?_, ?_, ?_,
    fun table r cl ch h1 h2 hne hlow hhigh =>
      interpolate_coeff_lerp table r cl ch h1 h2 hne hlow hhigh⟩
  · intro p hp
    have hk : 1 ≤ p.1 ∧ p.1 ≤ 2 ∧ p.1 * 10 = (⌊p.1 * 10⌋ : ℚ) := by
      fin_cases hp <;> norm_num
    exact interpolate_coeff_at_int _ p.1 p.2 hk.1 hk.2.1 hk.2.2
      (lookup_eq_some_of_mem coeff_ss_keys_nodup (by simpa using hp))
  · intro p hp
    have hk : 1 ≤ p.1 ∧ p.1 ≤ 2 ∧ p.1 * 10 = (⌊p.1 * 10⌋ : ℚ) := by
      fin_cases hp <;> norm_num
    exact interpolate_coeff_at_int _ p.1 p.2 hk.1 hk.2.1 hk.2.2
      (lookup_eq_some_of_mem coeff_af_keys_nodup (by simpa using hp))
  · intro r hr
    have hcl : min (max r 1) 2 = min (max (1 : ℚ) 1) 2 := by
      rw [max_eq_right hr.le]; norm_num
    constructor
    · rw [interpolate_coeff_congr_clamp _ r 1 hcl]
      exact interpolate_coeff_at_int _ 1 _ (by norm_num) (by norm_num)
        (by norm_num) (lookup_eq_some_of_mem coeff_ss_keys_nodup
          (by norm_num [SlabDesign.COEFF_SIMPLY_SUPPORTED]))
    · rw [interpolate_coeff_congr_clamp _ r 1 hcl]
      exact interpolate_coeff_at_int _ 1 _ (by norm_num) (by norm_num)
        (by norm_num) (lookup_eq_some_of_mem coeff_af_keys_nodup
          (by norm_num [SlabDesign.COEFF_ALL_FIXED]))
  · intro r hr
    have hcl : min (max r 1) 2 = min (max (2 : ℚ) 1) 2 := by
      rw [max_eq_left (by linarith), min_eq_right hr.le]; norm_num
    constructor
    · rw [interpolate_coeff_congr_clamp _ r 2 hcl]
      exact interpolate_coeff_at_int _ 2 _ (by norm_num) (by norm_num)
        (by norm_num) (lookup_eq_some_of_mem coeff_ss_keys_nodup
          (by norm_num [SlabDesign.COEFF_SIMPLY_SUPPORTED]))
    · rw [interpolate_coeff_congr_clamp _ r 2 hcl]
      exact interpolate_coeff_at_int _ 2 _ (by norm_num) (by norm_num)
        (by norm_num) (lookup_eq_some_of_mem coeff_af_keys_nodup
          (by norm_num [SlabDesign.COEFF_ALL_FIXED]))

/-- Witness for C6 at the in-between ratio 1.45: the interpolated pair is
    the midpoint of the 1.4 and 1.5 rows of the simply-supported table. -/
theorem C6_witness :
    (1 : ℚ) ≤ 29 / 20 ∧ (29 / 20 : ℚ) ≤ 2 ∧
    ⌊(29 / 20 : ℚ) * 10⌋ ≠ ⌈(29 / 20 : ℚ) * 10⌉ ∧
    SlabDesign.interpolate_coeff SlabDesign.COEFF_SIMPLY_SUPPORTED (29 / 20) =
      (0.092, 0.04125) := by
  have hfl : ⌊(29 / 20 : ℚ) * 10⌋ = 14 := by norm_num
  have hcl : ⌈(29 / 20 : ℚ) * 10⌉ = 15 := by
    rw [Int.ceil_eq_iff]; norm_num
  have hlow : SlabDesign.COEFF_SIMPLY_SUPPORTED.lookup
      ((⌊(29 / 20 : ℚ) * 10⌋ : ℚ) / 10) = some (0.0892, 0.0432) :=
    lookup_eq_some_of_mem coeff_ss_keys_nodup
      (by rw [hfl]; norm_num [SlabDesign.COEFF_SIMPLY_SUPPORTED])
  have hhigh : SlabDesign.COEFF_SIMPLY_SUPPORTED.lookup
      ((⌈(29 / 20 : ℚ) * 10⌉ : ℚ) / 10) = some (0.0948, 0.0393) :=
    lookup_eq_some_of_mem coeff_ss_keys_nodup
      (by rw [hcl]; norm_num [SlabDesign.COEFF_SIMPLY_SUPPORTED])
  have h := C6_interpolation.2.2.2.2 SlabDesign.COEFF_SIMPLY_SUPPORTED
    (29 / 20) (0.0892, 0.0432) (0.0948, 0.0393) (by norm_num) (by norm_num)
    (by rw [hfl, hcl]; norm_num) hlow hhigh
  refine ⟨by norm_num, by norm_num, by rw [hfl, hcl]; norm_num, ?_⟩
  rw [h, hfl, hcl]
  norm_num

/-- At span ratio ly/lx = 7/5 = 1.4 under simply supported conditions the
    two-way coefficients returned by the slab evaluator are exactly the
    tabulated 1.4 entries (0.0892, 0.0432). -/
theorem slab_ratio14_alphas :
    (SlabDesign.calculate_slab_with_grades 5 7 0.2 5 2 ⟨30, 2.90⟩
        ⟨500, 200000⟩ 25 SlabDesign.SupportType.simply_supported).twoWayData.map
      SlabDesign.TwoWayData.alpha_x = some 0.0892 ∧
    (SlabDesign.calculate_slab_with_grades 5 7 0.2 5 2 ⟨30, 2.90⟩
        ⟨500, 200000⟩ 25 SlabDesign.SupportType.simply_supported).twoWayData.map
      SlabDesign.TwoWayData.alpha_y = some 0.0432 := by
  have hb : decide ((2 : ℚ) < 7 / 5 ∨
      SlabDesign.SupportType.simply_supported =
        SlabDesign.SupportType.one_way) = false := by
    rw [decide_eq_false_iff_not]
    push_neg
    exact ⟨by norm_num, by simp⟩
  have halpha : SlabDesign.interpolate_coeff SlabDesign.COEFF_SIMPLY_SUPPORTED
      ((7 : ℚ) / 5) = (0.0892, 0.0432) :=
    interpolate_coeff_at_int _ _ _ (by norm_num) (by norm_num) (by norm_num)
      (lookup_eq_some_of_mem coeff_ss_keys_nodup
        (by norm_num [SlabDesign.COEFF_SIMPLY_SUPPORTED]))
  refine ⟨?_, ?_⟩ <;>
  · simp only [SlabDesign.calculate_slab_with_grades, hb, Bool.false_eq_true,
      if_false]
    have hsup : (SlabDesign.SupportType.simply_supported =
        SlabDesign.SupportType.all_fixed) = False := by simp
    simp only [hsup, if_false]
    simp [halpha]

/-- C7 counterexample: at span ratio ly/lx = 7/5 = 1.4 the two-way
    coefficients returned by the slab evaluator are exactly the tabulated
    1.4 entries (0.0892, 0.0432), so they are not strictly between the
    tabulated 1.4 entries (alpha_x equals the upper entry and alpha_y the
    lower one, and neither lies strictly between 0.0432 and 0.0892). -/
theorem C7_counterexample :
    (SlabDesign.calculate_slab_with_grades 5 7 0.2 5 2 ⟨30, 2.90⟩
        ⟨500, 200000⟩ 25 SlabDesign.SupportType.simply_supported).twoWayData.map
      SlabDesign.TwoWayData.alpha_x = some 0.0892 ∧
    (SlabDesign.calculate_slab_with_grades 5 7 0.2 5 2 ⟨30, 2.90⟩
        ⟨500, 200000⟩ 25 SlabDesign.SupportType.simply_supported).twoWayData.map
      SlabDesign.TwoWayData.alpha_y = some 0.0432 ∧
    ¬((0.0432 : ℚ) < 0.0892 ∧ (0.0892 : ℚ) < 0.0892) ∧
    ¬((0.0432 : ℚ) < 0.0432 ∧ (0.0432 : ℚ) < 0.0892) :=
  ⟨slab_ratio14_alphas.1, slab_ratio14_alphas.2, by norm_num, by norm_num⟩

/-- C7 (amended): a slab with span ratio 2.5 under the default support is
    classified one-way; a slab with ratio 1.4 is classified two-way with
    coefficients exactly equal to the tabulated 1.4 entries (not strictly
    between them); in general the classification is one-way exactly when
    ly/lx > 2 or the one_way support override is given. -/
theorem C7_amended_classification :
    (SlabDesign.calculate_slab_with_grades 4 10 0.2 5 2 ⟨30, 2.90⟩
        ⟨500, 200000⟩ 25 SlabDesign.SupportType.simply_supported).is_one_way
      = true ∧
    (SlabDesign.calculate_slab_with_grades 5 7 0.2 5 2 ⟨30, 2.90⟩
        ⟨500, 200000⟩ 25 SlabDesign.SupportType.simply_supported).is_one_way
      = false ∧
    (SlabDesign.calculate_slab_with_grades 5 7 0.2 5 2 ⟨30, 2.90⟩
        ⟨500, 200000⟩ 25 SlabDesign.SupportType.simply_supported).twoWayData.map
      SlabDesign.TwoWayData.alpha_x = some 0.0892 ∧
    (SlabDesign.calculate_slab_with_grades 5 7 0.2 5 2 ⟨30, 2.90⟩
        ⟨500, 200000⟩ 25 SlabDesign.SupportType.simply_supported).twoWayData.map
      SlabDesign.TwoWayData.alpha_y = some 0.0432 ∧
    (∀ (lx ly thickness g q : ℚ) (conc : SlabDesign.ConcreteGrade)
        (st : SlabDesign.SteelGrade) (cover : ℚ)
        (support : SlabDesign.SupportType),
      (SlabDesign.calculate_slab_with_grades lx ly thickness g q conc st
          cover support).is_one_way = true ↔
        (2 < ly / lx ∨ support = SlabDesign.SupportType.one_way)) := by
  refine ⟨?_, ?_, slab_ratio14_alphas.1, slab_ratio14_alphas.2, ?_⟩
  · simp only [SlabDesign.calculate_slab_with_grades]
    rw [decide_eq_true_eq]
    exact Or.inl (by norm_num)
  · simp only [SlabDesign.calculate_slab_with_grades]
    rw [decide_eq_false_iff_not]
    push_neg
    exact ⟨by norm_num, by simp⟩
  · intro lx ly thickness g q conc st cover support
    simp only [SlabDesign.calculate_slab_with_grades]
    rw [decide_eq_true_eq]

/-- C10: unlike the beam-bending evaluator, the slab evaluator has no
    error state: xi is clamped to 0.5 whenever mu reaches 0.5, every call
    returns a normal result whose branch data is present according to the
    classification, and in the clamped one-way case the main reinforcement
    area is the finite value max(0.5 * b * d * fcd / fyd, As_min). -/
theorem C10_slab_overcapacity_clamp :
    (∀ mu : ℚ, 1 / 2 ≤ mu → SlabDesign.xi_of mu = 1 / 2) ∧
    (∀ (lx ly thickness g q : ℚ) (conc : SlabDesign.ConcreteGrade)
        (st : SlabDesign.SteelGrade) (cover : ℚ)
        (support : SlabDesign.SupportType),
      (SlabDesign.calculate_slab_with_grades lx ly thickness g q conc st
          cover support).oneWayData.isSome =
        (SlabDesign.calculate_slab_with_grades lx ly thickness g q conc st
          cover support).is_one_way ∧
      (SlabDesign.calculate_slab_with_grades lx ly thickness g q conc st
          cover support).twoWayData.isSome =
        !(SlabDesign.calculate_slab_with_grades lx ly thickness g q conc st
          cover support).is_one_way) ∧
    (∀ (lx ly thickness g q : ℚ) (conc : SlabDesign.ConcreteGrade)
        (st : SlabDesign.SteelGrade) (cover : ℚ)
        (support : SlabDesign.SupportType),
      (SlabDesign.calculate_slab_with_grades lx ly thickness g q conc st
          cover support).is_one_way = true →
      1 / 2 ≤ SlabDesign.slab_mu (SlabDesign.M_Ed_span (combine g q) lx support)
          (SlabDesign.slab_d_x thickness cover) (conc.fck / GAMMA_C) →
      (SlabDesign.calculate_slab_with_grades lx ly thickness g q conc st
          cover support).oneWayData.map SlabDesign.OneWayData.As_span_x =
        some (max ((1 / 2 : ℝ) * 1000 *
            ((SlabDesign.slab_d_x thickness cover : ℚ) : ℝ) *
            ((conc.fck / GAMMA_C : ℚ) : ℝ) / ((st.fyk / GAMMA_S : ℚ) : ℝ))
          ((SlabDesign.slab_As_min thickness cover conc st : ℚ) : ℝ))) := by
  refine ⟨xi_of_clamp, ?_, ?_⟩
  · intro lx ly thickness g q conc st cover support
    cases hb : decide (2 < ly / lx ∨ support = SlabDesign.SupportType.one_way) with
    | false =>
      constructor <;>
        simp [SlabDesign.calculate_slab_with_grades, hb]
    | true =>
      constructor <;>
        simp [SlabDesign.calculate_slab_with_grades, hb]
  · intro lx ly thickness g q conc st cover support h1w hmu
    simp only [SlabDesign.calculate_slab_with_grades] at h1w ⊢
    rw [h1w, if_pos rfl]
    simp only [SlabDesign.slab_As]
    rw [xi_of_clamp _ hmu]
    simp

/-- Witness for C10 at a concrete over-capacity one-way slab
    (lx 4, ly 9, thickness 0.10 m, g = q = 100 kN/m2, C30_37, B500SP,
    cover 25): mu is far above 0.5, the result is the normal one-way
    record and the reinforcement area is the clamped finite value. -/
theorem C10_witness :
    (SlabDesign.calculate_slab_with_grades 4 9 0.1 100 100 ⟨30, 2.90⟩
        ⟨500, 200000⟩ 25 SlabDesign.SupportType.simply_supported).is_one_way
      = true ∧
    1 / 2 ≤ SlabDesign.slab_mu
        (SlabDesign.M_Ed_span (combine 100 100) 4
          SlabDesign.SupportType.simply_supported)
        (SlabDesign.slab_d_x 0.1 25)
        ((⟨30, 2.90⟩ : SlabDesign.ConcreteGrade).fck / GAMMA_C) ∧
    (SlabDesign.calculate_slab_with_grades 4 9 0.1 100 100 ⟨30, 2.90⟩
        ⟨500, 200000⟩ 25
        SlabDesign.SupportType.simply_supported).oneWayData.map
      SlabDesign.OneWayData.As_span_x =
      some (max ((1 / 2 : ℝ) * 1000 * ((SlabDesign.slab_d_x 0.1 25 : ℚ) : ℝ) *
          (((⟨30, 2.90⟩ : SlabDesign.ConcreteGrade).fck / GAMMA_C : ℚ) : ℝ) /
            (((⟨500, 200000⟩ : SlabDesign.SteelGrade).fyk / GAMMA_S : ℚ) : ℝ))
        ((SlabDesign.slab_As_min 0.1 25 ⟨30, 2.90⟩ ⟨500, 200000⟩ : ℚ) : ℝ)) := by
  have h1w : (SlabDesign.calculate_slab_with_grades 4 9 0.1 100 100
      ⟨30, 2.90⟩ ⟨500, 200000⟩ 25
      SlabDesign.SupportType.simply_supported).is_one_way = true := by
    simp only [SlabDesign.calculate_slab_with_grades]
    rw [decide_eq_true_eq]
    exact Or.inl (by norm_num)
  have hmu : (1 / 2 : ℚ) ≤ SlabDesign.slab_mu
      (SlabDesign.M_Ed_span (combine 100 100) 4
        SlabDesign.SupportType.simply_supported)
      (SlabDesign.slab_d_x 0.1 25)
      ((⟨30, 2.90⟩ : SlabDesign.ConcreteGrade).fck / GAMMA_C) := by
    simp only [SlabDesign.M_Ed_span]
    rw [if_neg (by simp)]
    norm_num [SlabDesign.slab_mu, SlabDesign.slab_d_x, combine,
      GAMMA_G, GAMMA_Q, GAMMA_C]
  exact ⟨h1w, hmu,
    C10_slab_overcapacity_clamp.2.2 4 9 0.1 100 100 ⟨30, 2.90⟩
      ⟨500, 200000⟩ 25 SlabDesign.SupportType.simply_supported h1w hmu⟩

/-- C8 (amended): both catalog searches keep at most one proposal per
    discrete size (pairwise distinct diameters / profile names), return
    the list sorted ascending by margin = provided/required (for the
    steel series this follows from the catalog's mass order also ordering
    Wply) and truncated to at most 5 entries; the beam search returns []
    exactly when, for every admissible diameter, the minimal
    area-satisfying count fails the packing constraints or the two-bar
    minimum (a size whose minimal count is below two is skipped, not
    bumped up); the steel search returns [] exactly when no profile of
    the series satisfies all three requirements. -/
theorem C8_amended_search_shape :
    (∀ (req : ℝ) (b_mm cover sd : ℚ),
      (BeamBending.find_bars req b_mm cover sd).length ≤ 5) ∧
    (∀ (req : ℝ) (b_mm cover sd : ℚ),
      List.Sorted (fun p q : BeamBending.BarProposal => p.ratio ≤ q.ratio)
        (BeamBending.find_bars req b_mm cover sd)) ∧
    (∀ (req : ℝ) (b_mm cover sd : ℚ),
      (BeamBending.find_bars req b_mm cover sd).Pairwise
        (fun p q => p.dia ≠ q.dia)) ∧
    (∀ (req : ℝ) (b_mm cover sd : ℚ),
      (BeamBending.find_bars req b_mm cover sd = [] ↔
        ∀ dia ∈ BeamBending.BAR_DIAMETERS, ¬dia < 12 →
          ¬((⌈req / bar_area dia⌉ : ℚ) * dia +
              ((⌈req / bar_area dia⌉ : ℚ) - 1) * max 25 dia ≤
                b_mm - 2 * cover - 2 * sd ∧
            2 ≤ ⌈req / bar_area dia⌉))) ∧
    (∀ (span g q dl : ℚ) (st : SteelBeam.SteelGrade)
        (profiles : List (String × SteelBeam.SteelProfile)),
      profiles = SteelBeam.PROFILES_IPE ∨ profiles = SteelBeam.PROFILES_HEA ∨
        profiles = SteelBeam.PROFILES_HEB →
      (SteelBeam.select_beam_with_profiles span g q st profiles
          dl).candidates.length ≤ 5 ∧
      (SteelBeam.select_beam_with_profiles span g q st profiles
          dl).candidates.Pairwise (fun c c' => c.name ≠ c'.name) ∧
      (0 ≤ (SteelBeam.select_beam_with_profiles span g q st profiles
          dl).Wply_req →
        List.Sorted (fun c c' : SteelBeam.SteelCandidate =>
          c.Wply / (SteelBeam.select_beam_with_profiles span g q st profiles
            dl).Wply_req ≤
          c'.Wply / (SteelBeam.select_beam_with_profiles span g q st profiles
            dl).Wply_req)
          (SteelBeam.select_beam_with_profiles span g q st profiles
            dl).candidates) ∧
      ((SteelBeam.select_beam_with_profiles span g q st profiles
          dl).candidates = [] ↔
        ∀ p ∈ profiles,
          ¬((SteelBeam.select_beam_with_profiles span g q st profiles
              dl).Wply_req ≤ p.2.Wply ∧
            (SteelBeam.select_beam_with_profiles span g q st profiles
              dl).Iy_req ≤ p.2.Iy ∧
            (((SteelBeam.select_beam_with_profiles span g q st profiles
              dl).V_Ed : ℚ) : ℝ) ≤ SteelBeam.V_pl_Rd_of p.2 st.fy))) := by
  haveI hto : IsTotal BeamBending.BarProposal
      (fun p q => p.ratio ≤ q.ratio) := ⟨fun a b => le_total _ _⟩
  haveI htr : IsTrans BeamBending.BarProposal
      (fun p q => p.ratio ≤ q.ratio) := ⟨fun a b c hab hbc => le_trans hab hbc⟩
  refine ⟨?_, ?_, ?_, ?_, ?_⟩
  · intro req b_mm cover sd
    simp only [BeamBending.find_bars]
    exact List.length_take_le 5 _
  · intro req b_mm cover sd
    simp only [BeamBending.find_bars]
    exact List.Pairwise.sublist (List.take_sublist 5 _)
      (List.sorted_insertionSort _ _)
  · intro req b_mm cover sd
    simp only [BeamBending.find_bars]
    refine List.Pairwise.sublist (List.take_sublist 5 _) ?_
    rw [(List.perm_insertionSort _ _).pairwise_iff (fun h => Ne.symm h)]
    rw [List.pairwise_filterMap]
    have hdias : BeamBending.BAR_DIAMETERS.Pairwise (fun a b : ℚ => a ≠ b) := by
      norm_num [BeamBending.BAR_DIAMETERS, List.pairwise_cons, List.mem_cons]
    refine List.Pairwise.imp ?_ hdias
    intro a b hab x hx y hy
    have hxa : x.dia = a := by
      split at hx
      · simp at hx
      · split at hx
        · simp only [Option.mem_def, Option.some_inj] at hx
          rw [← hx]
        · simp at hx
    have hyb : y.dia = b := by
      split at hy
      · simp at hy
      · split at hy
        · simp only [Option.mem_def, Option.some_inj] at hy
          rw [← hy]
        · simp at hy
    rw [hxa, hyb]
    exact hab
  · intro req b_mm cover sd
    simp only [BeamBending.find_bars]
    rw [List.take_eq_nil_iff, insertionSort_ratio_eq_nil_iff,
      List.filterMap_eq_nil_iff]
    constructor
    · rintro (h5 | hall)
      · norm_num at h5
      · intro dia hdia h12 hguard
        have hd := hall dia hdia
        rw [if_neg h12, if_pos hguard] at hd
        exact Option.some_ne_none _ hd
    · intro hall
      right
      intro dia hdia
      by_cases h12 : dia < 12
      · exact if_pos h12
      · rw [if_neg h12]
        exact if_neg (hall dia hdia h12)
  · intro span g q dl st profiles hpr
    haveI : IsTotal (String × SteelBeam.SteelProfile)
        (fun a b => a.2.mass ≤ b.2.mass) := ⟨fun a b => le_total _ _⟩
    haveI : IsTrans (String × SteelBeam.SteelProfile)
        (fun a b => a.2.mass ≤ b.2.mass) :=
      ⟨fun a b c hab hbc => le_trans hab hbc⟩
    have hpermS := List.perm_insertionSort
      (fun a b : String × SteelBeam.SteelProfile => a.2.mass ≤ b.2.mass)
      profiles
    refine ⟨?_, ?_, ?_, ?_⟩
    · simp only [SteelBeam.select_beam_with_profiles]
      exact List.length_take_le 5 _
    · simp only [SteelBeam.select_beam_with_profiles]
      refine List.Pairwise.sublist (List.take_sublist 5 _) ?_
      rw [List.pairwise_filterMap]
      have hnames : (SteelBeam.sort_by_mass profiles).Pairwise
          (fun a b => a.1 ≠ b.1) :=
        ((List.perm_insertionSort _ _).pairwise_iff
          (fun h => Ne.symm h)).mpr (profiles_names_nodup profiles hpr)
      refine List.Pairwise.imp ?_ hnames
      intro a b hab x hx y hy
      have hxa : x.name = a.1 := by
        split at hx
        · simp only [Option.mem_def, Option.some_inj] at hx
          rw [← hx]
        · simp at hx
      have hyb : y.name = b.1 := by
        split at hy
        · simp only [Option.mem_def, Option.some_inj] at hy
          rw [← hy]
        · simp at hy
      rw [hxa, hyb]
      exact hab
    · intro hW
      simp only [SteelBeam.select_beam_with_profiles] at hW ⊢
      refine List.Pairwise.sublist (List.take_sublist 5 _) ?_
      rw [List.pairwise_filterMap]
      have hsorted : List.Sorted
          (fun a b : String × SteelBeam.SteelProfile =>
            a.2.mass ≤ b.2.mass) (SteelBeam.sort_by_mass profiles) :=
        List.sorted_insertionSort _ _
      have hwply : (SteelBeam.sort_by_mass profiles).Pairwise
          (fun a b => a.2.Wply ≤ b.2.Wply) := by
        refine List.Pairwise.imp_of_mem ?_ hsorted
        intro a b ha hb hm
        have hmemS : ∀ {c : String × SteelBeam.SteelProfile},
            c ∈ SteelBeam.sort_by_mass profiles → c ∈ profiles := by
          intro c hc
          exact (List.mem_insertionSort _).mp hc
        exact profiles_mass_wply_mono profiles hpr a (hmemS ha) b (hmemS hb) hm
      refine List.Pairwise.imp ?_ hwply
      intro a b hab x hx y hy
      have hxa : x.Wply = a.2.Wply := by
        split at hx
        · simp only [Option.mem_def, Option.some_inj] at hx
          rw [← hx]
        · simp at hx
      have hyb : y.Wply = b.2.Wply := by
        split at hy
        · simp only [Option.mem_def, Option.some_inj] at hy
          rw [← hy]
        · simp at hy
      rw [hxa, hyb]
      rcases eq_or_lt_of_le hW with h0 | h0
      · rw [← h0]
        simp
      · rw [div_le_div_iff_of_pos_right h0]
        exact hab
    · simp only [SteelBeam.select_beam_with_profiles]
      rw [List.take_eq_nil_iff]
      constructor
      · rintro (h5 | hnil)
        · norm_num at h5
        · rw [List.filterMap_eq_nil_iff] at hnil
          intro p hp hguard
          have := hnil p (((List.mem_insertionSort _).mpr hp))
          rw [if_pos hguard] at this
          simp at this
      · intro hall
        right
        refine List.filterMap_eq_nil_iff.mpr (fun p hp => ?_)
        exact if_neg (hall p ((List.mem_insertionSort _).mp hp))

/-- C4 (amended): every proposal returned by either catalog search covers
    the required area (provided >= required); the column search also
    enforces the upper bound As_max = 0.04 of the gross section, but the
    beam search performs no As_max check at all (see the counterexample). -/
theorem C4_amended_proposal_bounds :
    (∀ (req : ℝ) (b_mm cover sd : ℚ),
      ∀ p ∈ BeamBending.find_bars req b_mm cover sd, req ≤ p.As_provided) ∧
    (∀ (height_col b h N_Ed M_Ed : ℚ) (conc : ColumnDesign.ConcreteGrade)
        (st : ColumnDesign.SteelGrade) (cover eff : ℚ),
      ∀ p ∈ (ColumnDesign.calculate_column_with_grades height_col b h N_Ed
          M_Ed conc st cover eff).proposals,
        (((ColumnDesign.calculate_column_with_grades height_col b h N_Ed M_Ed
            conc st cover eff).As_required : ℚ) : ℝ) ≤ p.As_provided ∧
        p.As_provided ≤
          (((ColumnDesign.calculate_column_with_grades height_col b h N_Ed
            M_Ed conc st cover eff).As_max : ℚ) : ℝ)) := by
  constructor
  · intro req b_mm cover sd p hp
    simp only [BeamBending.find_bars] at hp
    have hp2 := List.mem_of_mem_take hp
    rw [List.mem_insertionSort] at hp2
    rcases List.mem_filterMap.mp hp2 with ⟨dia, hdia, hfd⟩
    by_cases h12 : dia < 12
    · rw [if_pos h12] at hfd
      exact absurd hfd (by simp)
    · rw [if_neg h12] at hfd
      split at hfd
      · have hpeq := Option.some_inj.mp hfd
        rw [← hpeq]
        have hdr : (12 : ℝ) ≤ (dia : ℝ) := by
          exact_mod_cast not_lt.mp h12
        have hpos : (0 : ℝ) < bar_area dia := by
          unfold bar_area
          exact div_pos (mul_pos Real.pi_pos (by nlinarith)) (by norm_num)
        exact (div_le_iff hpos).mp (Int.le_ceil _)
      · exact absurd hfd (by simp)
  · intro height_col b h N_Ed M_Ed conc st cover eff p hp
    simp only [ColumnDesign.calculate_column_with_grades] at hp ⊢
    exact column_proposals_bounds _ _ _ _ _ p hp

/-- C4 counterexample: for span 6 m, b 0.60 m, h 0.30 m, g 85, q 0,
    C50_60, B400, cover 10 the beam evaluator succeeds with As_required
    about 7044 mm2 and As_max = 0.04*600*300 = 7200 mm2, yet returns a
    single proposal of nine 32 mm bars providing 2304*pi > 7231 mm2 -
    the beam catalog search never enforces the As_max bound, refuting
    the upper-bound half of the claim. -/
theorem C4_counterexample :
    ∃ r, BeamBending.calculate_beam_bending 6 0.6 0.3 85 0 ("C50_60") ("B400")
        10 = some r ∧ r.error = false ∧
      ∃ p, r.proposalsOf = [p] ∧ ((r.As_maxOf : ℚ) : ℝ) < p.As_provided := by
  have hnot : ¬(BeamBending.beam_mu_lim ⟨400, 200000⟩ <
      BeamBending.beam_mu 6 0.6 0.3 85 0 10 (50 / GAMMA_C)) := by
    norm_num [BeamBending.beam_mu, BeamBending.beam_mu_lim,
      BeamBending.beam_M_Ed, BeamBending.beam_d_mm, combine,
      GAMMA_C, GAMMA_S, GAMMA_G, GAMMA_Q]
  refine ⟨BeamBending.beam_bending_with_grades 6 0.6 0.3 85 0
    ⟨50, 4.07, 37000⟩ ⟨400, 200000⟩ 10, rfl, ?_, ?_⟩
  · simp only [BeamBending.beam_bending_with_grades, if_neg hnot,
      BeamBending.BeamResult.error]
  · simp only [BeamBending.beam_bending_with_grades, if_neg hnot,
      BeamBending.BeamResult.proposalsOf, BeamBending.BeamResult.As_maxOf]
    have hmax : ((0.04 * (0.6 * 1000) * (0.3 * 1000) : ℚ) : ℝ) = 7200 := by
      have h : (0.04 * (0.6 * 1000) * (0.3 * 1000) : ℚ) = 7200 := by norm_num
      rw [h]
      norm_num
    rw [hmax]
    have harg : (1 : ℝ) - 2 *
        ((BeamBending.beam_mu 6 0.6 0.3 85 0 10 (50 / GAMMA_C) : ℚ) : ℝ) =
        44693 / 147968 := by
      have hmu : BeamBending.beam_mu 6 0.6 0.3 85 0 10 (50 / GAMMA_C) =
          103275 / 295936 := by
        norm_num [BeamBending.beam_mu, BeamBending.beam_M_Ed,
          BeamBending.beam_d_mm, combine, GAMMA_C, GAMMA_G, GAMMA_Q]
      rw [hmu]
      push_cast
      norm_num
    have hs_lo : (0.5495 : ℝ) < Real.sqrt (44693 / 147968) :=
      (Real.lt_sqrt (by norm_num)).mpr (by norm_num)
    have hs_hi : Real.sqrt (44693 / 147968) < 0.5497 :=
      (Real.sqrt_lt' (by norm_num)).mpr (by norm_num)
    have hb : ((0.6 * 1000 : ℚ) : ℝ) = 600 := by push_cast; norm_num
    have hd : ((BeamBending.beam_d_mm 0.3 10 : ℚ) : ℝ) = 272 := by
      have h : BeamBending.beam_d_mm 0.3 10 = 272 := by
        norm_num [BeamBending.beam_d_mm]
      rw [h]
      norm_num
    have hfcd : (((50 : ℚ) / GAMMA_C : ℚ) : ℝ) = 100 / 3 := by
      have h : (50 : ℚ) / GAMMA_C = 100 / 3 := by norm_num [GAMMA_C]
      rw [h]
      push_cast
      norm_num
    have hfyd : (((400 : ℚ) / GAMMA_S : ℚ) : ℝ) = 8000 / 23 := by
      have h : (400 : ℚ) / GAMMA_S = 8000 / 23 := by norm_num [GAMMA_S]
      rw [h]
      push_cast
      norm_num
    have hmin : (0.26 * 4.07 / 400 * (0.6 * 1000) * BeamBending.beam_d_mm 0.3
        10 ⊔ 13e-4 * (0.6 * 1000) * BeamBending.beam_d_mm 0.3 10 : ℚ) =
        269841 / 625 := by
      rw [max_eq_left (by norm_num [BeamBending.beam_d_mm])]
      norm_num [BeamBending.beam_d_mm]
    refine find_bars_single_of_big _ ?_ ?_
    · rw [harg, hb, hd, hfcd, hfyd]
      refine lt_max_iff.mpr (Or.inl ?_)
      rw [lt_div_iff (by norm_num : (0 : ℝ) < 8000 / 23)]
      nlinarith [hs_hi]
    · rw [harg, hb, hd, hfcd, hfyd, hmin]
      refine max_lt ?_ (by norm_num)
      rw [div_lt_iff (by norm_num : (0 : ℝ) < 8000 / 23)]
      nlinarith [hs_lo]

/-- Witness for C4 (amended): a concrete beam proposal (the single
    feasible one for a 7044 mm2 requirement) provides at least the
    requirement, and a concrete column proposal for a 2.5 m, 0.5 x 0.5 m
    unloaded column lies between As_required and As_max. -/
theorem C4_witness :
    (∃ p, p ∈ BeamBending.find_bars 7044 (0.6 * 1000) 10 8 ∧
      (7044 : ℝ) ≤ p.As_provided) ∧
    (∃ p, p ∈ (ColumnDesign.calculate_column_with_grades 2.5 0.5 0.5 0 0
          ⟨30, 2.90, 33000⟩ ⟨500, 200000⟩ 30 1).proposals ∧
      (((ColumnDesign.calculate_column_with_grades 2.5 0.5 0.5 0 0
          ⟨30, 2.90, 33000⟩ ⟨500, 200000⟩ 30 1).As_required : ℚ) : ℝ) ≤
            p.As_provided ∧
      p.As_provided ≤ (((ColumnDesign.calculate_column_with_grades 2.5 0.5 0.5
          0 0 ⟨30, 2.90, 33000⟩ ⟨500, 200000⟩ 30 1).As_max : ℚ) : ℝ)) := by
  constructor
  · obtain ⟨p, heq, -⟩ :=
      find_bars_single_of_big 7044 (by norm_num) (by norm_num)
    have hmem : p ∈ BeamBending.find_bars 7044 (0.6 * 1000) 10 8 := by
      rw [heq]
      exact List.mem_singleton_self p
    exact ⟨p, hmem, C4_amended_proposal_bounds.1 7044 (0.6 * 1000) 10 8 p hmem⟩
  · have hne : (ColumnDesign.calculate_column_with_grades 2.5 0.5 0.5 0 0
        ⟨30, 2.90, 33000⟩ ⟨500, 200000⟩ 30 1).proposals ≠ [] := by
      norm_num [ColumnDesign.calculate_column_with_grades, GAMMA_C, GAMMA_S,
        max_def, min_def]
      exact column_proposals_16_nonempty
    refine ⟨(ColumnDesign.calculate_column_with_grades 2.5 0.5 0.5 0 0
        ⟨30, 2.90, 33000⟩ ⟨500, 200000⟩ 30 1).proposals.head hne,
      List.head_mem hne, ?_, ?_⟩
    · exact (C4_amended_proposal_bounds.2 2.5 0.5 0.5 0 0 ⟨30, 2.90, 33000⟩
        ⟨500, 200000⟩ 30 1 _ (List.head_mem hne)).1
    · exact (C4_amended_proposal_bounds.2 2.5 0.5 0.5 0 0 ⟨30, 2.90, 33000⟩
        ⟨500, 200000⟩ 30 1 _ (List.head_mem hne)).2

/-- C1 counterexample: with span 6, b 0.30, h 0.60, g 15, q 10, C30_37,
    B500SP, cover 35 the evaluator returns q_Ed = 1.35*15 + 1.50*10 =
    35.25 kN/m, not the 29.25 kN/m claimed (and hence M_Ed = 158.625, not
    131.6). -/
theorem C1_counterexample :
    (BeamBending.calculate_beam_bending 6 0.3 0.6 15 10 ("C30_37") ("B500SP")
        35).map BeamBending.BeamResult.q_EdOf = some (35.25 : ℚ) ∧
    (35.25 : ℚ) ≠ 29.25 := by
  have hres : BeamBending.calculate_beam_bending 6 0.3 0.6 15 10 ("C30_37")
      ("B500SP") 35 = some (BeamBending.beam_bending_with_grades 6 0.3 0.6 15
        10 ⟨30, 2.90, 33000⟩ ⟨500, 200000⟩ 35) := rfl
  refine ⟨?_, by norm_num⟩
  rw [hres, Option.map_some']
  have hq : BeamBending.BeamResult.q_EdOf (BeamBending.beam_bending_with_grades
      6 0.3 0.6 15 10 ⟨30, 2.90, 33000⟩ ⟨500, 200000⟩ 35) = combine 15 10 := by
    by_cases hc : BeamBending.beam_mu_lim ⟨500, 200000⟩ <
        BeamBending.beam_mu 6 0.3 0.6 15 10 35 (30 / GAMMA_C)
    · simp only [BeamBending.beam_bending_with_grades, if_pos hc,
        BeamBending.BeamResult.q_EdOf]
    · simp only [BeamBending.beam_bending_with_grades, if_neg hc,
        BeamBending.BeamResult.q_EdOf]
  rw [hq]
  norm_num [combine, GAMMA_G, GAMMA_Q]

/-- C1 (amended): for span 6.0 m, b 0.30 m, h 0.60 m, g 15.0, q 10.0,
    C30_37, B500SP, cover 35 the evaluator returns q_Ed = 35.25 kN/m and
    M_Ed = 158.625 kNm (not 29.25 / 131.6), accepts the simplified method
    (mu <= mu_lim, no error state) and returns a non-empty bar-proposal
    list. -/
theorem C1_amended_beam_scenario :
    ∃ r, BeamBending.calculate_beam_bending 6 0.3 0.6 15 10 ("C30_37")
        ("B500SP") 35 = some r ∧
      r.error = false ∧ r.q_EdOf = 35.25 ∧ r.M_EdOf = 158.625 ∧
      r.muOf ≤ r.mu_limOf ∧ r.proposalsOf ≠ [] := by
  have hnot : ¬(BeamBending.beam_mu_lim ⟨500, 200000⟩ <
      BeamBending.beam_mu 6 0.3 0.6 15 10 35 (30 / GAMMA_C)) := by
    norm_num [BeamBending.beam_mu, BeamBending.beam_mu_lim,
      BeamBending.beam_M_Ed, BeamBending.beam_d_mm, combine,
      GAMMA_C, GAMMA_S, GAMMA_G, GAMMA_Q]
  refine ⟨BeamBending.beam_bending_with_grades 6 0.3 0.6 15 10
    ⟨30, 2.90, 33000⟩ ⟨500, 200000⟩ 35, rfl, ?_, ?_, ?_, ?_, ?_⟩
  · simp only [BeamBending.beam_bending_with_grades, if_neg hnot,
      BeamBending.BeamResult.error]
  · simp only [BeamBending.beam_bending_with_grades, if_neg hnot,
      BeamBending.BeamResult.q_EdOf]
    norm_num [combine, GAMMA_G, GAMMA_Q]
  · simp only [BeamBending.beam_bending_with_grades, if_neg hnot,
      BeamBending.BeamResult.M_EdOf]
    norm_num [BeamBending.beam_M_Ed, combine, GAMMA_G, GAMMA_Q]
  · simp only [BeamBending.beam_bending_with_grades, if_neg hnot,
      BeamBending.BeamResult.muOf, BeamBending.BeamResult.mu_limOf]
    exact le_of_not_lt hnot
  · simp only [BeamBending.beam_bending_with_grades, if_neg hnot,
      BeamBending.BeamResult.proposalsOf]
    have harg : (1 : ℝ) - 2 *
        ((BeamBending.beam_mu 6 0.3 0.6 15 10 35 (30 / GAMMA_C) : ℚ) : ℝ) =
        246334 / 299209 := by
      have hmu : BeamBending.beam_mu 6 0.3 0.6 15 10 35 (30 / GAMMA_C) =
          52875 / 598418 := by
        norm_num [BeamBending.beam_mu, BeamBending.beam_M_Ed,
          BeamBending.beam_d_mm, combine, GAMMA_C, GAMMA_G, GAMMA_Q]
      rw [hmu]
      push_cast
      norm_num
    have hs_lo : (0.907 : ℝ) < Real.sqrt (246334 / 299209) :=
      (Real.lt_sqrt (by norm_num)).mpr (by norm_num)
    have hs_hi : Real.sqrt (246334 / 299209) < 0.908 :=
      (Real.sqrt_lt' (by norm_num)).mpr (by norm_num)
    have hb : ((0.3 * 1000 : ℚ) : ℝ) = 300 := by push_cast; norm_num
    have hd : ((BeamBending.beam_d_mm 0.6 35 : ℚ) : ℝ) = 547 := by
      have : BeamBending.beam_d_mm 0.6 35 = 547 := by
        norm_num [BeamBending.beam_d_mm]
      rw [this]
      norm_num
    have hfcd : (((30 : ℚ) / GAMMA_C : ℚ) : ℝ) = 20 := by
      have : (30 : ℚ) / GAMMA_C = 20 := by norm_num [GAMMA_C]
      rw [this]
      norm_num
    have hfyd : (((500 : ℚ) / GAMMA_S : ℚ) : ℝ) = 10000 / 23 := by
      have : (500 : ℚ) / GAMMA_S = 10000 / 23 := by norm_num [GAMMA_S]
      rw [this]
      norm_num
    have hmin : (0.26 * 2.90 / 500 * (0.3 * 1000) * BeamBending.beam_d_mm 0.6
        35 ⊔ 13e-4 * (0.3 * 1000) * BeamBending.beam_d_mm 0.6 35 : ℚ) =
        618657 / 2500 := by
      rw [max_eq_left (by norm_num [BeamBending.beam_d_mm])]
      norm_num [BeamBending.beam_d_mm]
    refine find_bars_nonempty_of_mid _ ?_ ?_
    · rw [harg, hb, hd, hfcd, hfyd]
      refine lt_max_iff.mpr (Or.inl ?_)
      rw [lt_div_iff (by norm_num : (0 : ℝ) < 10000 / 23)]
      nlinarith [hs_hi]
    · rw [harg, hb, hd, hfcd, hfyd, hmin]
      refine max_lt ?_ (by norm_num)
      rw [div_lt_iff (by norm_num : (0 : ℝ) < 10000 / 23)]
      nlinarith [hs_lo]

/-- C8 counterexample: for a required area of 50 mm2 (beam 300 mm wide,
    cover 35, stirrup 8) the beam catalog search returns the empty list,
    although two 12 mm bars satisfy both the area requirement and the
    packing constraints - the search only tries the minimal
    area-satisfying count (one bar), which is below the two-bar minimum,
    and never bumps the count up. -/
theorem C8_counterexample :
    BeamBending.find_bars 50 300 35 8 = [] ∧
    (50 : ℝ) ≤ 2 * bar_area 12 ∧
    ((2 : ℚ) * 12 + (2 - 1) * max 25 12 ≤ 300 - 2 * 35 - 2 * 8) := by
  refine ⟨?_, ?_, by norm_num⟩
  · simp only [BeamBending.find_bars]
    rw [List.take_eq_nil_iff, insertionSort_ratio_eq_nil_iff,
      List.filterMap_eq_nil_iff]
    right
    intro dia hdia
    fin_cases hdia
    · exact if_pos (by norm_num)
    · exact if_pos (by norm_num)
    all_goals
      rw [if_neg (by norm_num)]
      refine if_neg ?_
      rintro ⟨-, h2⟩
      rw [ceil_50_over_bar_area _ (by norm_num)] at h2
      norm_num at h2
  · unfold bar_area
    nlinarith [Real.pi_gt_d2]

/-- Witness for C8: for an IPE selection at span 8 m, g 10, q 15, S355,
    deflection limit 250 the required plastic modulus is nonnegative and
    the candidate list is sorted ascending by margin Wply/Wply_req. -/
theorem C8_witness :
    0 ≤ (SteelBeam.select_beam_with_profiles 8 10 15 ⟨355, 510⟩
        SteelBeam.PROFILES_IPE 250).Wply_req ∧
    List.Sorted (fun c c' : SteelBeam.SteelCandidate =>
      c.Wply / (SteelBeam.select_beam_with_profiles 8 10 15 ⟨355, 510⟩
        SteelBeam.PROFILES_IPE 250).Wply_req ≤
      c'.Wply / (SteelBeam.select_beam_with_profiles 8 10 15 ⟨355, 510⟩
        SteelBeam.PROFILES_IPE 250).Wply_req)
      (SteelBeam.select_beam_with_profiles 8 10 15 ⟨355, 510⟩
        SteelBeam.PROFILES_IPE 250).candidates := by
  have hW : 0 ≤ (SteelBeam.select_beam_with_profiles 8 10 15 ⟨355, 510⟩
      SteelBeam.PROFILES_IPE 250).Wply_req := by
    simp only [SteelBeam.select_beam_with_profiles]
    norm_num [combine, GAMMA_G, GAMMA_Q, SteelBeam.GAMMA_M0]
  exact ⟨hW, (C8_amended_search_shape.2.2.2.2 8 10 15 250 ⟨355, 510⟩
    SteelBeam.PROFILES_IPE (Or.inl rfl)).2.2.1 hW⟩

/-- C2 counterexample: at b 0.30, d 0.50, V_Ed 10000 kN, C30_37, B500SP,
    theta 45 the computed V_Ed exceeds V_Rd,max, the result is flagged
    safe = false, and yet the returned dict still carries a stirrup
    proposal (diameter 8 at spacing 50 mm), contradicting the claim that
    no stirrup proposal is produced. -/
theorem C2_counterexample :
    (BeamShear.calculate_shear 0.3 0.5 10000 ("C30_37") ("B500SP") 0 45).map
        BeamShear.ShearResult.safe = some false ∧
    (BeamShear.calculate_shear 0.3 0.5 10000 ("C30_37") ("B500SP") 0 45).map
        BeamShear.ShearResult.stirrup_dia = some 8 ∧
    (BeamShear.calculate_shear 0.3 0.5 10000 ("C30_37") ("B500SP") 0 45).map
        BeamShear.ShearResult.s_required = some 50 := by
  have hres : BeamShear.calculate_shear 0.3 0.5 10000 ("C30_37") ("B500SP")
      0 45 = some (BeamShear.calculate_shear_with_grades 0.3 0.5 10000
        ⟨30, 2.90⟩ ⟨500⟩ 0 45) := rfl
  have hneeds : decide (BeamShear.shear_V_Rd_c 0.3 0.5 ⟨30, 2.90⟩ 0 <
      ((10000 : ℚ) : ℝ)) = true := decide_eq_true shear_V_Rd_c_example
  have hsmax : min (0.75 * ((0.5 : ℚ) * 1000)) 600 = (375 : ℚ) := by norm_num
  have hAsw : ((10000 * 1000 : ℚ) : ℝ) /
      (0.9 * (((0.5 : ℚ) * 1000 : ℚ) : ℝ) *
        ((((⟨500⟩ : BeamShear.SteelGrade).fyk / GAMMA_S : ℚ)) : ℝ) *
        BeamShear.cot_theta 45) = 460 / 9 := by
    rw [cot_theta_45_eq_one]
    push_cast [GAMMA_S]
    norm_num
  refine ⟨?_, ?_, ?_⟩ <;> rw [hres]
  · simp only [Option.map_some']
    simp only [BeamShear.calculate_shear_with_grades]
    exact congrArg some (decide_eq_false (not_le.mpr shear_V_Rd_max_example))
  · simp only [Option.map_some']
    simp only [BeamShear.calculate_shear_with_grades, hneeds, if_true]
    rw [hAsw, hsmax, pick_stirrup_example]
  · simp only [Option.map_some']
    simp only [BeamShear.calculate_shear_with_grades, hneeds, if_true]
    rw [hAsw, hsmax, pick_stirrup_example]

/-- C2 (amended): whenever the design shear exceeds the strut capacity
    V_Rd,max the shear result is flagged safe = false (the unsafe state is
    terminal for the check); the stirrup proposal, however, is still
    computed and returned in the dict - only the report layer omits it. -/
theorem C2_amended_strut_overload :
    ∀ (b d V_Ed : ℚ) (conc : BeamShear.ConcreteGrade)
      (st : BeamShear.SteelGrade) (As_l theta_deg : ℚ),
      BeamShear.shear_V_Rd_max b d conc theta_deg < (V_Ed : ℝ) →
      (BeamShear.calculate_shear_with_grades b d V_Ed conc st As_l
          theta_deg).safe = false := by
  intro b d V_Ed conc st As_l theta_deg h
  simp only [BeamShear.calculate_shear_with_grades]
  exact decide_eq_false (not_le.mpr h)

/-- Witness for C2 at b 0.30 m, d 0.50 m, V_Ed 10000 kN, C30_37, theta 45:
    the strut capacity 712.8 kN is exceeded and the flag is false. -/
theorem C2_witness :
    BeamShear.shear_V_Rd_max 0.3 0.5 ⟨30, 2.90⟩ 45 < ((10000 : ℚ) : ℝ) ∧
    (BeamShear.calculate_shear_with_grades 0.3 0.5 10000 ⟨30, 2.90⟩ ⟨500⟩ 0
        45).safe = false := by
  have hct : BeamShear.cot_theta 45 = 1 := by
    unfold BeamShear.cot_theta
    rw [show ((45 : ℚ) : ℝ) * Real.pi / 180 = Real.pi / 4 by push_cast; ring,
      Real.tan_pi_div_four]
    norm_num
  have hVmax : BeamShear.shear_V_Rd_max 0.3 0.5 ⟨30, 2.90⟩ 45 <
      ((10000 : ℚ) : ℝ) := by
    simp only [BeamShear.shear_V_Rd_max]
    rw [hct]
    push_cast [GAMMA_C]
    norm_num
  exact ⟨hVmax, C2_amended_strut_overload 0.3 0.5 10000 ⟨30, 2.90⟩ ⟨500⟩ 0
    45 hVmax⟩

/-- C5: the bending evaluator returns its structured error dict, carrying
    the computed mu and mu_lim, exactly when mu > mu_lim; the boundary
    mu = mu_lim is accepted (the source tests `if mu > mu_lim`, so
    equality falls into the accepted branch). -/
theorem C5_mu_boundary :
    ∀ (span b h g q cover : ℚ) (conc : BeamBending.ConcreteGrade)
      (st : BeamBending.SteelGrade),
      ((BeamBending.beam_bending_with_grades span b h g q conc st
          cover).error = true ↔
        BeamBending.beam_mu_lim st <
          BeamBending.beam_mu span b h g q cover (conc.fck / GAMMA_C)) ∧
      (BeamBending.beam_mu_lim st <
          BeamBending.beam_mu span b h g q cover (conc.fck / GAMMA_C) →
        BeamBending.beam_bending_with_grades span b h g q conc st cover =
          BeamBending.BeamResult.err (combine g q)
            (BeamBending.beam_M_Ed span g q)
            (BeamBending.beam_mu span b h g q cover (conc.fck / GAMMA_C))
            (BeamBending.beam_mu_lim st)) := by
  intro span b h g q cover conc st
  by_cases hc : BeamBending.beam_mu_lim st <
      BeamBending.beam_mu span b h g q cover (conc.fck / GAMMA_C)
  · constructor
    · simp only [BeamBending.beam_bending_with_grades, if_pos hc]
      exact iff_of_true rfl hc
    · intro _
      simp only [BeamBending.beam_bending_with_grades, if_pos hc]
  · constructor
    · simp only [BeamBending.beam_bending_with_grades, if_neg hc]
      exact iff_of_false (by simp [BeamBending.BeamResult.error]) hc
    · intro hbad
      exact absurd hbad hc

/-- Witness for C5 at a concrete over-capacity input (span 6 m, section
    0.30 x 0.30 m, g 100, q 50, C30_37, B500SP, cover 35): mu exceeds
    mu_lim and the evaluator returns the structured error dict. -/
theorem C5_witness :
    BeamBending.beam_mu_lim ⟨500, 200000⟩ <
      BeamBending.beam_mu 6 0.3 0.3 100 50 35
        ((⟨30, 2.90, 33000⟩ : BeamBending.ConcreteGrade).fck / GAMMA_C) ∧
    BeamBending.beam_bending_with_grades 6 0.3 0.3 100 50 ⟨30, 2.90, 33000⟩
        ⟨500, 200000⟩ 35 =
      BeamBending.BeamResult.err (combine 100 50)
        (BeamBending.beam_M_Ed 6 100 50)
        (BeamBending.beam_mu 6 0.3 0.3 100 50 35
          ((⟨30, 2.90, 33000⟩ : BeamBending.ConcreteGrade).fck / GAMMA_C))
        (BeamBending.beam_mu_lim ⟨500, 200000⟩) := by
  have hlt : BeamBending.beam_mu_lim ⟨500, 200000⟩ <
      BeamBending.beam_mu 6 0.3 0.3 100 50 35
        ((⟨30, 2.90, 33000⟩ : BeamBending.ConcreteGrade).fck / GAMMA_C) := by
    norm_num [BeamBending.beam_mu, BeamBending.beam_mu_lim,
      BeamBending.beam_M_Ed, BeamBending.beam_d_mm, combine,
      GAMMA_C, GAMMA_S, GAMMA_G, GAMMA_Q]
  exact ⟨hlt,
    (C5_mu_boundary 6 0.3 0.3 100 50 35 ⟨30, 2.90, 33000⟩ ⟨500, 200000⟩).2 hlt⟩
